import Mathlib

/-!
# Smart Motion Detection System: power-management state machine

A shallow embedding of `Lab5_Power_Management_Lab/src/main.cpp`.

* Distances (`float` in the source) are the rationals that IEEE binary32 numbers denote:
  every `float` operation of the source is followed by the rounding `f32`, the `double`
  division of the sensor reader by `f64`; comparisons are exact.
* `uint32_t` values are naturals; every operation that can leave the 32-bit
  range is reduced modulo `2^32` explicitly (`sub32`, `incr32`, `millis`).
* The RTC variables (`RTC_DATA_ATTR`) are the record `Rtc`.
* The hardware and the network are an environment `Env` of oracles: the wake
  cause, the echo duration returned by each `pulseIn`, the outcome of each
  `connectWiFi` and `initFirebase`, and the time that passes before each
  reading of `millis()` in addition to the explicit `delay`s.
* `Machine` is the state of one activation: the RTC variables, the clock, how
  many times each oracle was consulted, the history of collaborator calls and
  whether `enterDeepSleep` was reached (it never returns: the device powers
  down, so nothing runs after it).
* The two polling loops take a fuel argument and return `none` when it runs
  out; `monitorLoop_terminates` and `uploadWait_terminates` show how much fuel
  is always enough.
-/

namespace MotionDetect

/-! ## Configuration constants -/

def DEEP_SLEEP_NORMAL_MS : Nat := 10000
def DEEP_SLEEP_EXTENDED_MS : Nat := 30000
def ACTIVE_MONITOR_DURATION_MS : Nat := 30000
def ACTIVE_MONITOR_INTERVAL_MS : Nat := 2000
def MOTION_THRESHOLD_CM : ℚ := 10
def MOTION_CONFIRM_TIME_MS : Nat := 2000
def BASELINE_UPDATE_INTERVAL_MS : Nat := 300000
def MIN_UPLOAD_INTERVAL_MS : Nat := 60000
def UPLOAD_TIMEOUT_MS : Nat := 3000
def QUIET_PERIOD_THRESHOLD_MS : Nat := 300000

/-- Number of values of a `uint32_t`. -/
def UINT32_SIZE : Nat := 4294967296

/-- Subtraction of two `uint32_t` values, as C computes it: modulo `2^32`. -/
def sub32 (a b : Nat) : Nat :=
  (a % UINT32_SIZE + (UINT32_SIZE - b % UINT32_SIZE)) % UINT32_SIZE

/-- The `++` of a `uint32_t`: from `2^32 - 1` it wraps to `0`. -/
def incr32 (a : Nat) : Nat := (a + 1) % UINT32_SIZE

/-! ## Floating point -/

/-- Rounding of a rational to the nearest integer, ties to even. -/
def roundHalfEven (y : ℚ) : ℤ :=
  if y - ⌊y⌋ < 1 / 2 then ⌊y⌋
  else if 1 / 2 < y - ⌊y⌋ then ⌊y⌋ + 1
  else if ⌊y⌋ % 2 = 0 then ⌊y⌋ else ⌊y⌋ + 1

/-- Halvings that bring `n` below 2, with fuel. -/
def log2Aux : Nat → Nat → Nat
  | 0, _ => 0
  | fuel + 1, n => if 2 ≤ n then log2Aux fuel (n / 2) + 1 else 0

/-- The position of the leading bit of `n`: `2 ^ natLog2 n ≤ n < 2 ^ (natLog2 n + 1)`. -/
def natLog2 (n : Nat) : Nat := log2Aux n n

/-- The binary exponent of `y > 0`: `2 ^ ilog2 y ≤ y < 2 ^ (ilog2 y + 1)`. -/
def ilog2 (y : ℚ) : ℤ :=
  if y < (2 : ℚ) ^ ((natLog2 y.num.natAbs : ℤ) - (natLog2 y.den : ℤ)) then
    (natLog2 y.num.natAbs : ℤ) - (natLog2 y.den : ℤ) - 1
  else (natLog2 y.num.natAbs : ℤ) - (natLog2 y.den : ℤ)

/-- Round-to-nearest-even of `y > 0` in the binary format with `p` bits of precision and
least normal exponent `emin`: the nearest multiple of `2 ^ (e - (p - 1))`, where `e` is
the exponent of `y`, or `emin` in the subnormal range. -/
def roundMag (p : ℕ) (emin : ℤ) (y : ℚ) : ℚ :=
  roundHalfEven (y / (2 : ℚ) ^ (max emin (ilog2 y) - ((p : ℤ) - 1)))
    * (2 : ℚ) ^ (max emin (ilog2 y) - ((p : ℤ) - 1))

/-- Round-to-nearest-even of a rational in a binary floating-point format (no overflow:
the program's values stay far below the largest number of either format). -/
def roundBinary (p : ℕ) (emin : ℤ) (x : ℚ) : ℚ :=
  if x = 0 then 0 else if 0 < x then roundMag p emin x else - roundMag p emin (-x)

/-- The value of a real number as a `float` (IEEE binary32). -/
def f32 (x : ℚ) : ℚ := roundBinary 24 (-126) x

/-- The value of a real number as a `double` (IEEE binary64). -/
def f64 (x : ℚ) : ℚ := roundBinary 53 (-1022) x

/-! ## Data model -/

inductive DeviceState where
  | STATE_DEEP_SLEEP
  | STATE_QUICK_CHECK
  | STATE_ACTIVE_MONITOR
  | STATE_UPLOAD_EVENT
  deriving DecidableEq

open DeviceState

/-- The variables kept in RTC memory, which survive deep sleep. -/
structure Rtc where
  g_state : DeviceState
  g_baseline_distance : ℚ
  g_last_motion_time : Nat
  g_last_upload_time : Nat
  g_last_baseline_update : Nat
  g_motion_event_count : Nat
  g_total_uploads : Nat
  g_boot_count : Nat
  g_motion_active : Bool
  deriving DecidableEq

/-- The initial values of the RTC variables (cold boot). -/
def Rtc.coldBoot : Rtc :=
  { g_state := STATE_QUICK_CHECK, g_baseline_distance := -1, g_last_motion_time := 0,
    g_last_upload_time := 0, g_last_baseline_update := 0, g_motion_event_count := 0,
    g_total_uploads := 0, g_boot_count := 0, g_motion_active := false }

/-- What `esp_sleep_get_wakeup_cause` reports: the sleep timer, or anything else. -/
inductive WakeCause where
  | timer
  | other
  deriving DecidableEq

/-- Calls to the collaborators, recorded in the order they are made. -/
inductive Event where
  | sensorRead
  | wifiConnect
  | wifiDisconnect
  | firebaseInit
  | databaseSet
  | deepSleep (durationMs : Nat)
  deriving DecidableEq

/-- The world outside the program. -/
structure Env where
  /-- the wake cause of this activation -/
  wake : WakeCause
  /-- the clock, in ms, when the activation starts -/
  bootClock : Nat
  /-- time in ms that passes before the `k`-th reading of `millis()`, on top of the delays -/
  drift : Nat → Nat
  /-- echo duration in microseconds returned by the `k`-th `pulseIn` (0: no echo) -/
  pulse : Nat → Nat
  /-- whether the `k`-th `connectWiFi` ends connected -/
  wifi : Nat → Bool
  /-- whether the `k`-th `initFirebase` ends ready -/
  firebase : Nat → Bool

/-- State of one activation. -/
structure Machine where
  rtc : Rtc
  clock : Nat
  nMillis : Nat
  nPulse : Nat
  nWifi : Nat
  nFirebase : Nat
  /-- history of collaborator calls, oldest first -/
  trace : List Event
  /-- `some d` once `enterDeepSleep d` was called -/
  asleep : Option Nat
  deriving DecidableEq

/-- The machine at the start of an activation with the given RTC contents. -/
def Machine.wake (e : Env) (rtc : Rtc) : Machine :=
  { rtc := rtc, clock := e.bootClock, nMillis := 0, nPulse := 0, nWifi := 0, nFirebase := 0,
    trace := [], asleep := none }

/-! ## Collaborators -/

/-- Reading of `millis()`: the clock, as a `uint32_t`. -/
def millis (e : Env) (m : Machine) : Nat × Machine :=
  ((m.clock + e.drift m.nMillis) % UINT32_SIZE,
   { m with clock := m.clock + e.drift m.nMillis, nMillis := m.nMillis + 1 })

/-- Effect of `delay(ms)`. -/
def delay (ms : Nat) (m : Machine) : Machine :=
  { m with clock := m.clock + ms }

/-- The conversion and validation in `readUltrasonicDistance` (lines 104-115), as a
function of the echo duration, with the division taken over exact rationals. -/
def echoToDistance (duration : Nat) : ℚ :=
  if duration = 0 then -1
  else
    let distanceCm : ℚ := (duration : ℚ) / 58.2
    if distanceCm < 2 ∨ distanceCm > 400 then -1 else distanceCm

/-- The conversion and validation in `readUltrasonicDistance` (lines 104-115), as the
program computes them: `duration / 58.2` is a `double` division by the `double` nearest to
58.2, and its result is stored in the `float distanceCm`. -/
def echoReading (duration : Nat) : ℚ :=
  if duration = 0 then -1
  else
    let distanceCm : ℚ := f32 (f64 ((duration : ℚ) / f64 58.2))
    if distanceCm < 2 ∨ distanceCm > 400 then -1 else distanceCm

def readUltrasonicDistance (e : Env) (m : Machine) : ℚ × Machine :=
  (echoReading (e.pulse m.nPulse),
   { m with nPulse := m.nPulse + 1, trace := m.trace ++ [Event.sensorRead] })

def connectWiFi (e : Env) (m : Machine) : Bool × Machine :=
  (e.wifi m.nWifi, { m with nWifi := m.nWifi + 1, trace := m.trace ++ [Event.wifiConnect] })

def disconnectWiFi (m : Machine) : Machine :=
  { m with trace := m.trace ++ [Event.wifiDisconnect] }

def initFirebase (e : Env) (m : Machine) : Bool × Machine :=
  (e.firebase m.nFirebase,
   { m with nFirebase := m.nFirebase + 1, trace := m.trace ++ [Event.firebaseInit] })

/-- One `Database.set` call. -/
def databaseSet (m : Machine) : Machine :=
  { m with trace := m.trace ++ [Event.databaseSet] }

/-- The call `enterDeepSleep(durationMs)`: the device powers down. -/
def enterDeepSleep (durationMs : Nat) (m : Machine) : Machine :=
  { m with trace := m.trace ++ [Event.deepSleep durationMs], asleep := some durationMs }

/-! ## Baseline and candidate detection -/

def updateBaseline (e : Env) (m : Machine) (distance : ℚ) : Machine :=
  if distance > 0 then
    let m1 := { m with rtc := { m.rtc with g_baseline_distance := distance } }
    let (now, m2) := millis e m1
    { m2 with rtc := { m2.rtc with g_last_baseline_update := now } }
  else m

def detectMotion (m : Machine) (currentDistance : ℚ) : Bool :=
  if m.rtc.g_baseline_distance < 0 ∨ currentDistance < 0 then false
  else
    let change : ℚ := |f32 (currentDistance - m.rtc.g_baseline_distance)|
    decide (change > MOTION_THRESHOLD_CM)

/-! ## State QUICK CHECK -/

/-- Lines 220-223: the periodic refresh of the baseline. -/
def refreshBaseline (e : Env) (m : Machine) (distance : ℚ) : Machine :=
  let (now, m) := millis e m
  if sub32 now m.rtc.g_last_baseline_update > BASELINE_UPDATE_INTERVAL_MS
      ∧ m.rtc.g_motion_active = false then
    updateBaseline e m distance
  else m

def stateQuickCheck (e : Env) (m : Machine) : Machine :=
  let (_, m) := millis e m
  let (distance, m) := readUltrasonicDistance e m
  if distance < 0 then
    { m with rtc := { m.rtc with g_state := STATE_DEEP_SLEEP } }
  else if m.rtc.g_baseline_distance < 0 then
    let m := updateBaseline e m distance
    { m with rtc := { m.rtc with g_state := STATE_DEEP_SLEEP } }
  else
    let m := refreshBaseline e m distance
    if detectMotion m distance then
      let m := { m with rtc := { m.rtc with g_motion_active := true } }
      let (now, m) := millis e m
      { m with rtc := { m.rtc with
          g_last_motion_time := now,
          g_motion_event_count := incr32 m.rtc.g_motion_event_count,
          g_state := STATE_ACTIVE_MONITOR } }
    else if m.rtc.g_last_motion_time > 0 then
      let (now, m) := millis e m
      if sub32 now m.rtc.g_last_motion_time > QUIET_PERIOD_THRESHOLD_MS then
        enterDeepSleep DEEP_SLEEP_EXTENDED_MS m
      else
        enterDeepSleep DEEP_SLEEP_NORMAL_MS m
    else
      enterDeepSleep DEEP_SLEEP_NORMAL_MS m

/-! ## State ACTIVE MONITOR -/

/-- A valid sample seen in the monitoring window: history only, the program never reads it. -/
structure Sample where
  distance : ℚ
  /-- the last reading of `millis()` taken while the sample was handled -/
  stamp : Nat
  deriving DecidableEq

/-- The local variables of `stateActiveMonitor`, with the history of valid samples. -/
structure Monitor where
  startTime : Nat
  lastDistance : ℚ
  motionConfirmed : Bool
  stableMotionStart : Nat
  /-- history of the valid samples, most recent first -/
  samples : List Sample
  deriving DecidableEq

/-- The local variables when the window opens (lines 253-256). -/
def Monitor.init (startTime : Nat) : Monitor :=
  { startTime := startTime, lastDistance := -1, motionConfirmed := false,
    stableMotionStart := 0, samples := [] }

/-- Lines 262-287: the handling of a reading `distance > 0`. -/
def monitorSample (e : Env) (m : Machine) (l : Monitor) (distance : ℚ) : Machine × Monitor :=
  let (printed, m) := millis e m
  let (stamp, m, l) :=
    if detectMotion m distance then
      if l.lastDistance > 0 ∧ |f32 (distance - l.lastDistance)| < 5 then
        if l.stableMotionStart = 0 then
          let (now, m) := millis e m
          (now, m, { l with stableMotionStart := now })
        else
          let (now, m) := millis e m
          if sub32 now l.stableMotionStart ≥ MOTION_CONFIRM_TIME_MS then
            (now, m, { l with motionConfirmed := true })
          else (now, m, l)
      else (printed, m, { l with stableMotionStart := 0 })
    else (printed, m, { l with stableMotionStart := 0 })
  (m, { l with lastDistance := distance, samples := ⟨distance, stamp⟩ :: l.samples })

/-- One pass through the body of the `while` (lines 259-292). -/
def monitorBody (e : Env) (m : Machine) (l : Monitor) : Machine × Monitor :=
  let (distance, m) := readUltrasonicDistance e m
  let (m, l) := if distance > 0 then monitorSample e m l distance else (m, l)
  (delay ACTIVE_MONITOR_INTERVAL_MS m, l)

/-- The `while` of lines 258-293; `none` when the fuel runs out. -/
def monitorLoop (e : Env) : Nat → Machine → Monitor → Option (Machine × Monitor)
  | 0, _, _ => none
  | fuel + 1, m, l =>
    let (now, m) := millis e m
    if sub32 now l.startTime < ACTIVE_MONITOR_DURATION_MS then
      let (m, l) := monitorBody e m l
      monitorLoop e fuel m l
    else some (m, l)

/-- Lines 253-293: the monitoring window, up to the decision. -/
def monitorWindow (e : Env) (fuel : Nat) (m : Machine) : Option (Machine × Monitor) :=
  let (startTime, m) := millis e m
  monitorLoop e fuel m (Monitor.init startTime)

/-- Lines 295-311: upload or return to sleep. -/
def monitorDecision (e : Env) (m : Machine) (motionConfirmed : Bool) : Machine :=
  if motionConfirmed then
    let (now, m) := millis e m
    if sub32 now m.rtc.g_last_upload_time ≥ MIN_UPLOAD_INTERVAL_MS then
      { m with rtc := { m.rtc with g_state := STATE_UPLOAD_EVENT } }
    else
      enterDeepSleep DEEP_SLEEP_NORMAL_MS
        { m with rtc := { m.rtc with g_motion_active := false } }
  else
    enterDeepSleep DEEP_SLEEP_NORMAL_MS
      { m with rtc := { m.rtc with g_motion_active := false } }

def stateActiveMonitor (e : Env) (fuel : Nat) (m : Machine) : Option Machine :=
  match monitorWindow e fuel m with
  | none => none
  | some (m, l) => some (monitorDecision e m l.motionConfirmed)

/-! ## State UPLOAD EVENT -/

/-- The wait of lines 361-365; `none` when the fuel runs out. -/
def uploadWait (e : Env) (waitStart : Nat) : Nat → Machine → Option Machine
  | 0, _ => none
  | fuel + 1, m =>
    let (now, m) := millis e m
    if sub32 now waitStart < UPLOAD_TIMEOUT_MS then
      uploadWait e waitStart fuel (delay 50 m)
    else some m

/-- Lines 367-385: what follows the wait. -/
def uploadFinish (e : Env) (m : Machine) : Machine :=
  let (_, m) := millis e m
  let m := disconnectWiFi m
  let m := { m with rtc := { m.rtc with g_total_uploads := incr32 m.rtc.g_total_uploads } }
  let (now, m) := millis e m
  let m := { m with rtc := { m.rtc with g_last_upload_time := now, g_motion_active := false } }
  enterDeepSleep DEEP_SLEEP_NORMAL_MS m

def stateUploadEvent (e : Env) (fuel : Nat) (m : Machine) : Option Machine :=
  let (_, m) := millis e m
  let (connected, m) := connectWiFi e m
  if connected = false then
    some (enterDeepSleep DEEP_SLEEP_NORMAL_MS
      { m with rtc := { m.rtc with g_motion_active := false } })
  else
    let (ready, m) := initFirebase e m
    if ready = false then
      let m := disconnectWiFi m
      some (enterDeepSleep DEEP_SLEEP_NORMAL_MS
        { m with rtc := { m.rtc with g_motion_active := false } })
    else
      let (_, m) := readUltrasonicDistance e m
      let (_, m) := millis e m
      let m := databaseSet (databaseSet (databaseSet (databaseSet m)))
      let m := databaseSet (databaseSet (databaseSet m))
      let (waitStart, m) := millis e m
      match uploadWait e waitStart fuel m with
      | none => none
      | some m => some (uploadFinish e m)

/-! ## Arduino entry points -/

def setup (e : Env) (rtc : Rtc) : Machine :=
  let m := delay 500 (Machine.wake e rtc)
  let m := { m with rtc := { m.rtc with g_boot_count := incr32 m.rtc.g_boot_count } }
  match e.wake with
  | WakeCause.timer => m
  | WakeCause.other => { m with rtc := { m.rtc with g_state := STATE_QUICK_CHECK } }

/-- The `default` branch of the `switch` in `loop()` (lines 442-445). -/
def resetState (m : Machine) : Machine :=
  { m with rtc := { m.rtc with g_state := STATE_QUICK_CHECK } }

/-- The `delay(1000)` that ends `loop()` (line 450): reached only when the handler did
not power the device down. -/
def endOfLoop (m : Machine) : Machine :=
  if m.asleep.isSome then m else delay 1000 m

/-- One call of `loop()`. -/
def loop (e : Env) (fuel : Nat) (m : Machine) : Option Machine :=
  let r : Option Machine :=
    match m.rtc.g_state with
    | STATE_QUICK_CHECK => some (stateQuickCheck e m)
    | STATE_ACTIVE_MONITOR => stateActiveMonitor e fuel m
    | STATE_UPLOAD_EVENT => stateUploadEvent e fuel m
    | STATE_DEEP_SLEEP => some (resetState m)
  r.map endOfLoop

/-- The RTC variables with which the next activation starts, given where this one ended:
deep sleep keeps RTC memory as the program left it. -/
def persisted (m : Machine) : Rtc := m.rtc

/-- The Arduino runtime calls `loop()` again and again: at most `passes` calls,
stopping when the device has powered down. -/
def loops (e : Env) (fuel : Nat) : Nat → Machine → Option Machine
  | 0, m => some m
  | passes + 1, m =>
    if m.asleep.isSome then some m
    else
      match loop e fuel m with
      | none => none
      | some m => loops e fuel passes m

/-- One activation: `setup()`, then up to `passes` calls of `loop()`. -/
def activation (e : Env) (fuel passes : Nat) (rtc : Rtc) : Option Machine :=
  loops e fuel passes (setup e rtc)

/-- No single step of the program takes `10^9` ms (eleven days) or more. -/
def BoundedDrift (e : Env) : Prop := ∀ k, e.drift k < 1000000000

/-! ## Example inputs -/

/-- An environment in which only the delays take time, every echo lasts `pulse`
microseconds and the network is down. -/
def Env.steady (wake : WakeCause) (bootClock pulse : Nat) : Env :=
  { wake := wake, bootClock := bootClock, drift := fun _ => 0, pulse := fun _ => pulse,
    wifi := fun _ => false, firebase := fun _ => false }


/-- RTC contents of a device whose baseline is 50 cm and that has never seen motion:
`g_last_motion_time` still has its initial value 0. -/
def Rtc.neverMoved : Rtc :=
  { Rtc.coldBoot with g_baseline_distance := 50, g_last_baseline_update := 390000,
                      g_boot_count := 40 }

/-- A timer wake 400 s after the first boot, with the scene at the baseline (50 cm). -/
def Env.quiet : Env := Env.steady WakeCause.timer 400000 2910


/-- An environment in which only the delays take time, every echo lasts 2037 microseconds
(35 cm) and both WiFi and Firebase come up. -/
def Env.online (wake : WakeCause) (bootClock : Nat) : Env :=
  { wake := wake, bootClock := bootClock, drift := fun _ => 0, pulse := fun _ => 2037,
    wifi := fun _ => true, firebase := fun _ => true }


/-! ## Runs of stable candidate samples -/

/-- The samples of `run` (most recent first) are consecutive valid samples, each found a
candidate motion against the baseline of `m` by `detectMotion` and each found within the
5 cm stability tolerance of the valid sample taken before it by the test of line 270
(both on binary32 differences); `p` is the valid sample taken before the oldest sample of
the run. -/
def stableRun (m : Machine) : List Sample → Sample → Bool
  | [], _ => true
  | s :: rest, p =>
    detectMotion m s.distance
      && decide (|f32 (s.distance - (rest.headD p).distance)| < 5)
      && stableRun m rest p

/-- The same with the differences taken exactly: each sample of `run` is more than
`MOTION_THRESHOLD_CM` away from the set baseline of `m`, and less than 5 cm away from the
valid sample taken before it. -/
def exactRun (m : Machine) : List Sample → Sample → Bool
  | [], _ => true
  | s :: rest, p =>
    decide (0 ≤ m.rtc.g_baseline_distance ∧ 0 ≤ s.distance ∧
        MOTION_THRESHOLD_CM < |s.distance - m.rtc.g_baseline_distance|)
      && decide (|s.distance - (rest.headD p).distance| < 5)
      && exactRun m rest p


/-- The history `samples` (most recent first) contains a confirming run: consecutive valid
samples `first`, ..., `last`, each a candidate motion against the baseline of `m` and each
within the stability tolerance of the valid sample before it (`p` before `first`), with
`last` taken `MOTION_CONFIRM_TIME_MS` or more after `first`. -/
def confirmingRun (m : Machine) (samples : List Sample) : Prop :=
  ∃ post last mid first p pre,
    samples = post ++ last :: (mid ++ first :: p :: pre) ∧
    stableRun m (last :: (mid ++ [first])) p = true ∧
    first.stamp + MOTION_CONFIRM_TIME_MS ≤ last.stamp

/-- The invariant of the monitoring loop, at the head of the `while`: how the local
variables relate to the history of samples. `m0` is the machine on which the window
opened. -/
structure MonitorInv (m0 m : Machine) (l : Monitor) : Prop where
  rtc : m.rtc = m0.rtc
  valid : ∀ s ∈ l.samples, 2 ≤ s.distance ∧ s.distance ≤ 400
  last_of_cons : ∀ p pre, l.samples = p :: pre →
    p.distance = l.lastDistance ∧ 0 < l.lastDistance
  last_of_nil : l.samples = [] → l.lastDistance ≤ 0
  start_le : l.stableMotionStart ≤ m.clock
  clock_pos : l.samples ≠ [] → 0 < m.clock
  timer_sound : l.stableMotionStart ≠ 0 →
    ∃ mid first p pre, l.samples = mid ++ first :: p :: pre ∧
      stableRun m0 (mid ++ [first]) p = true ∧ first.stamp = l.stableMotionStart
  confirmed_sound : l.motionConfirmed = true → confirmingRun m0 l.samples
  timer_complete : ∀ mid first p pre, l.samples = mid ++ first :: p :: pre →
    stableRun m0 (mid ++ [first]) p = true →
    l.stableMotionStart ≠ 0 ∧ l.stableMotionStart ≤ first.stamp
  confirmed_complete : confirmingRun m0 l.samples → l.motionConfirmed = true


/-- In the window of this environment the first `count` polls of the sensor return the
echo durations `2025`, `2043`, `2031`, `2031`, ... microseconds (34.79, 35.10, 34.90,
34.90, ... cm) and the later ones get no echo; only the delays take time and the network
is down. -/
def Env.readings (count : Nat) : Env :=
  { wake := WakeCause.timer, bootClock := 100000, drift := fun _ => 0,
    pulse := fun k => if k < count then (if k = 0 then 2025 else if k = 1 then 2043 else 2031)
      else 0,
    wifi := fun _ => false, firebase := fun _ => false }

/-- RTC contents on entry to ActiveMonitor: baseline 50 cm, motion latched. -/
def Rtc.monitoring : Rtc :=
  { Rtc.coldBoot with g_state := STATE_ACTIVE_MONITOR, g_baseline_distance := 50,
                      g_last_motion_time := 90000, g_last_baseline_update := 1000,
                      g_motion_event_count := 1, g_boot_count := 9, g_motion_active := true }


/-- RTC contents of a device in its duty cycle: baseline 50 cm, no motion seen and no
upload made so far. -/
def Rtc.watching : Rtc :=
  { Rtc.coldBoot with g_baseline_distance := 50, g_last_baseline_update := 90000,
                      g_boot_count := 9 }

/-- RTC contents that the activation of `Rtc.watching` at clock 100000, with an object
at 35 cm and the network up, leaves behind for the next activation (see
`upload_leaves_upload_state`). -/
def Rtc.afterUpload : Rtc :=
  { g_state := STATE_UPLOAD_EVENT, g_baseline_distance := 50, g_last_motion_time := 100500,
    g_last_upload_time := 135500, g_last_baseline_update := 90000, g_motion_event_count := 1,
    g_total_uploads := 1, g_boot_count := 10, g_motion_active := false }


/-- RTC contents of a device whose baseline is the reading of a 118 microsecond echo
(an object 2.03 cm away). -/
def Rtc.nearObject : Rtc :=
  { Rtc.coldBoot with g_baseline_distance := echoReading 118, g_last_baseline_update := 10000,
                      g_boot_count := 1 }

/-- A run whose differences keep clear of the two thresholds by one binary32 step: each
sample of `run` is at least `10 + 2^-20` cm away from the set baseline of `m` and at most
`5 - 2^-21` cm away from the valid sample taken before it. -/
def marginRun (m : Machine) : List Sample → Sample → Bool
  | [], _ => true
  | s :: rest, p =>
    decide (0 ≤ m.rtc.g_baseline_distance ∧ 0 ≤ s.distance ∧
        MOTION_THRESHOLD_CM + 1 / 2 ^ 20 ≤ |s.distance - m.rtc.g_baseline_distance|)
      && decide (|s.distance - (rest.headD p).distance| ≤ 5 - 1 / 2 ^ 21)
      && marginRun m rest p

/-! # Lemmas and theorems -/


/-! ## Arithmetic of `uint32_t` -/

theorem sub32_of_le (a b : Nat) (hab : b ≤ a) (ha : a < UINT32_SIZE) : sub32 a b = a - b := by
  unfold sub32 UINT32_SIZE at *; omega

theorem sub32_mod_mod (c c0 : Nat) (h : c0 ≤ c) :
    sub32 (c % UINT32_SIZE) (c0 % UINT32_SIZE) = (c - c0) % UINT32_SIZE := by
  unfold sub32 UINT32_SIZE; omega

theorem incr32_ne (a : Nat) : incr32 a ≠ a := by
  unfold incr32 UINT32_SIZE; omega

/-! ## Rounding to binary32 -/

theorem roundHalfEven_le (y : ℚ) (N : ℤ) (h : y ≤ N) : roundHalfEven y ≤ N := by
  have h1 : ⌊y⌋ ≤ N := by
    have := Int.floor_le y
    exact_mod_cast le_trans this h
  unfold roundHalfEven
  have key : ¬ (y - ⌊y⌋ < 1 / 2) → ⌊y⌋ + 1 ≤ N := by
    intro hf
    have h2 : (⌊y⌋ : ℚ) < y := by linarith
    have h3 : (⌊y⌋ : ℚ) < N := lt_of_lt_of_le h2 h
    have h4 : ⌊y⌋ < N := by exact_mod_cast h3
    omega
  split_ifs with c1 c2 c3
  · exact h1
  · exact key c1
  · exact h1
  · exact key c1

theorem le_roundHalfEven (y : ℚ) (N : ℤ) (h : (N : ℚ) ≤ y) : N ≤ roundHalfEven y := by
  have h1 : N ≤ ⌊y⌋ := Int.le_floor.mpr h
  unfold roundHalfEven
  split_ifs <;> omega

theorem log2Aux_bounds : ∀ (fuel n : Nat), n ≤ fuel → 1 ≤ n →
    2 ^ log2Aux fuel n ≤ n ∧ n < 2 ^ (log2Aux fuel n + 1) := by
  intro fuel
  induction fuel with
  | zero => intro n h1 h2; omega
  | succ f ih =>
    intro n h1 h2
    unfold log2Aux
    split_ifs with hc
    · obtain ⟨a, b⟩ := ih (n / 2) (by omega) (by omega)
      rw [pow_succ] at b ⊢
      rw [pow_succ, pow_succ]
      constructor <;> omega
    · simp; omega

theorem natLog2_bounds (n : Nat) (h : 1 ≤ n) :
    2 ^ natLog2 n ≤ n ∧ n < 2 ^ (natLog2 n + 1) :=
  log2Aux_bounds n n (le_refl _) h


theorem ilog2_bounds (y : ℚ) (hy : 0 < y) :
    (2 : ℚ) ^ ilog2 y ≤ y ∧ y < (2 : ℚ) ^ (ilog2 y + 1) := by
  have hnum : 0 < y.num := Rat.num_pos.mpr hy
  have hn1 : 1 ≤ y.num.natAbs := by omega
  have hd1 : 1 ≤ y.den := y.den_pos
  obtain ⟨na, nb⟩ := natLog2_bounds y.num.natAbs hn1
  obtain ⟨da, db⟩ := natLog2_bounds y.den hd1
  have hN : ((y.num.natAbs : ℕ) : ℚ) = (y.num : ℚ) := by
    have h0 : ((y.num.natAbs : ℕ) : ℤ) = y.num := Int.natAbs_of_nonneg hnum.le
    have h1 : (((y.num.natAbs : ℕ) : ℤ) : ℚ) = (y.num : ℚ) := by rw [h0]
    rw [← h1, Int.cast_natCast]
  have hyeq : y = ((y.num.natAbs : ℕ) : ℚ) / ((y.den : ℕ) : ℚ) := by
    rw [hN]; exact (Rat.num_div_den y).symm
  unfold ilog2
  generalize y.num.natAbs = n at *
  generalize y.den = d at *
  have hA : (0 : ℚ) < (2 : ℚ) ^ natLog2 n := by positivity
  have hB : (0 : ℚ) < (2 : ℚ) ^ natLog2 d := by positivity
  have na' : (2 : ℚ) ^ natLog2 n ≤ (n : ℚ) := by exact_mod_cast na
  have nb' : (n : ℚ) < 2 * (2 : ℚ) ^ natLog2 n := by
    have : (n : ℚ) < (2 : ℚ) ^ (natLog2 n + 1) := by exact_mod_cast nb
    rw [pow_succ] at this; linarith
  have da' : (2 : ℚ) ^ natLog2 d ≤ (d : ℚ) := by exact_mod_cast da
  have db' : (d : ℚ) < 2 * (2 : ℚ) ^ natLog2 d := by
    have : (d : ℚ) < (2 : ℚ) ^ (natLog2 d + 1) := by exact_mod_cast db
    rw [pow_succ] at this; linarith
  have hD : (0 : ℚ) < (d : ℚ) := lt_of_lt_of_le hB da'
  have e0 : (2 : ℚ) ^ ((natLog2 n : ℤ) - (natLog2 d : ℤ))
      = (2 : ℚ) ^ natLog2 n / (2 : ℚ) ^ natLog2 d := by
    rw [zpow_sub₀ (by norm_num : (2 : ℚ) ≠ 0), zpow_natCast, zpow_natCast]
  have em : (2 : ℚ) ^ ((natLog2 n : ℤ) - (natLog2 d : ℤ) - 1)
      = (2 : ℚ) ^ natLog2 n / (2 : ℚ) ^ natLog2 d / 2 := by
    rw [zpow_sub₀ (by norm_num : (2 : ℚ) ≠ 0), e0, zpow_one]
  have ep : (2 : ℚ) ^ ((natLog2 n : ℤ) - (natLog2 d : ℤ) + 1)
      = (2 : ℚ) ^ natLog2 n / (2 : ℚ) ^ natLog2 d * 2 := by
    rw [zpow_add₀ (by norm_num : (2 : ℚ) ≠ 0), e0, zpow_one]
  have hup : y < (2 : ℚ) ^ natLog2 n / (2 : ℚ) ^ natLog2 d * 2 := by
    rw [hyeq, div_mul_eq_mul_div, div_lt_div_iff₀ hD hB]
    nlinarith
  have hlo : (2 : ℚ) ^ natLog2 n / (2 : ℚ) ^ natLog2 d / 2 ≤ y := by
    rw [hyeq, div_div, div_le_div_iff₀ (by positivity) hD]
    nlinarith
  split_ifs with hc
  · rw [e0] at hc
    rw [em]
    refine ⟨hlo, ?_⟩
    have : (natLog2 n : ℤ) - (natLog2 d : ℤ) - 1 + 1 = (natLog2 n : ℤ) - (natLog2 d : ℤ) := by
      ring
    rw [this, e0]
    exact hc
  · rw [e0] at hc
    rw [e0, ep]
    exact ⟨not_lt.mp hc, hup⟩

/-- Rounding to binary32 does not cross a binary32 number: if `c = N0 * 2 ^ j` with
`N0 < 2 ^ 24` and `y` is on one side of `c`, so is the rounded `y`. -/
theorem roundMag_f32_bounds (y : ℚ) (hy : 0 < y) (N0 : ℕ) (j : ℤ) (hN : N0 < 2 ^ 24)
    (hj : -149 ≤ j) :
    (y ≤ (N0 : ℚ) * (2 : ℚ) ^ j → roundMag 24 (-126) y ≤ (N0 : ℚ) * (2 : ℚ) ^ j) ∧
    ((N0 : ℚ) * (2 : ℚ) ^ j ≤ y → (N0 : ℚ) * (2 : ℚ) ^ j ≤ roundMag 24 (-126) y) := by
  obtain ⟨hl, hu⟩ := ilog2_bounds y hy
  have h2 : (2 : ℚ) ≠ 0 := by norm_num
  unfold roundMag
  have hp : ((24 : ℕ) : ℤ) - 1 = 23 := by norm_num
  rw [hp]
  generalize hk : max (-126) (ilog2 y) - 23 = k
  have hq : (0 : ℚ) < (2 : ℚ) ^ k := by positivity
  by_cases hkj : k ≤ j
  · have hpow : (2 : ℚ) ^ j = ((2 ^ (j - k).toNat : ℕ) : ℚ) * (2 : ℚ) ^ k := by
      have h1 : j = ((j - k).toNat : ℤ) + k := by
        rw [Int.toNat_of_nonneg (by omega)]; ring
      conv_lhs => rw [h1]
      rw [zpow_add₀ h2, zpow_natCast]
      push_cast
      ring
    have hc : (N0 : ℚ) * (2 : ℚ) ^ j
        = (((N0 * 2 ^ (j - k).toNat : ℕ) : ℤ) : ℚ) * (2 : ℚ) ^ k := by
      rw [hpow]; push_cast; ring
    rw [hc]
    constructor
    · intro h
      have h3 : y / (2 : ℚ) ^ k ≤ (((N0 * 2 ^ (j - k).toNat : ℕ) : ℤ) : ℚ) :=
        (div_le_iff₀ hq).mpr h
      have h4 := roundHalfEven_le _ _ h3
      have h5 : ((roundHalfEven (y / (2 : ℚ) ^ k) : ℤ) : ℚ)
          ≤ (((N0 * 2 ^ (j - k).toNat : ℕ) : ℤ) : ℚ) := by exact_mod_cast h4
      exact mul_le_mul_of_nonneg_right h5 hq.le
    · intro h
      have h3 : (((N0 * 2 ^ (j - k).toNat : ℕ) : ℤ) : ℚ) ≤ y / (2 : ℚ) ^ k :=
        (le_div_iff₀ hq).mpr h
      have h4 := le_roundHalfEven _ _ h3
      have h5 : (((N0 * 2 ^ (j - k).toNat : ℕ) : ℤ) : ℚ)
          ≤ ((roundHalfEven (y / (2 : ℚ) ^ k) : ℤ) : ℚ) := by exact_mod_cast h4
      exact mul_le_mul_of_nonneg_right h5 hq.le
  · have he : ilog2 y = k + 23 := by
      have := le_max_left (-126 : ℤ) (ilog2 y)
      rcases max_cases (-126 : ℤ) (ilog2 y) with ⟨h1, _⟩ | ⟨h1, _⟩ <;> omega
    have hpow : (2 : ℚ) ^ ilog2 y = 8388608 * (2 : ℚ) ^ k := by
      rw [he, zpow_add₀ h2]
      norm_num
      ring
    obtain ⟨T, hT, hpow2⟩ : ∃ T : ℚ, 2 ≤ T ∧ (2 : ℚ) ^ k = T * (2 : ℚ) ^ j := by
      refine ⟨((2 ^ (k - j).toNat : ℕ) : ℚ), ?_, ?_⟩
      · have h1 : 1 ≤ (k - j).toNat := by omega
        have h3 : 2 ^ 1 ≤ 2 ^ (k - j).toNat := Nat.pow_le_pow_right (by norm_num) h1
        exact_mod_cast h3
      · have h1 : k = ((k - j).toNat : ℤ) + j := by
          rw [Int.toNat_of_nonneg (by omega)]; ring
        conv_lhs => rw [h1]
        rw [zpow_add₀ h2, zpow_natCast]
        push_cast
        ring
    have hj0 : (0 : ℚ) < (2 : ℚ) ^ j := by positivity
    have hN' : (N0 : ℚ) < 16777216 := by exact_mod_cast hN
    have hclt : (N0 : ℚ) * (2 : ℚ) ^ j < (2 : ℚ) ^ ilog2 y := by
      rw [hpow, hpow2]
      nlinarith
    constructor
    · intro h
      linarith
    · intro _
      have h3 : ((8388608 : ℤ) : ℚ) ≤ y / (2 : ℚ) ^ k := by
        rw [le_div_iff₀ hq]
        have : ((8388608 : ℤ) : ℚ) * (2 : ℚ) ^ k = (2 : ℚ) ^ ilog2 y := by
          rw [hpow]; push_cast; ring
        rw [this]; exact hl
      have h4 := le_roundHalfEven _ _ h3
      have h5 : (8388608 : ℚ)
          ≤ ((roundHalfEven (y / (2 : ℚ) ^ k) : ℤ) : ℚ) := by exact_mod_cast h4
      have h6 := mul_le_mul_of_nonneg_right h5 hq.le
      rw [← hpow] at h6
      exact le_trans hclt.le h6

theorem f32_zero : f32 0 = 0 := by simp [f32, roundBinary]

theorem roundMag_nonneg (p : ℕ) (emin : ℤ) (y : ℚ) (hy : 0 < y) : 0 ≤ roundMag p emin y := by
  unfold roundMag
  have hq : (0 : ℚ) < (2 : ℚ) ^ (max emin (ilog2 y) - ((p : ℤ) - 1)) := by positivity
  have h1 : ((0 : ℤ) : ℚ) ≤ y / (2 : ℚ) ^ (max emin (ilog2 y) - ((p : ℤ) - 1)) := by
    have := div_pos hy hq
    exact_mod_cast this.le
  have h2 := le_roundHalfEven _ _ h1
  have h3 : (0 : ℚ) ≤ ((roundHalfEven (y / (2 : ℚ) ^ (max emin (ilog2 y) - ((p : ℤ) - 1))) : ℤ) : ℚ) := by
    exact_mod_cast h2
  exact mul_nonneg h3 hq.le

/-- The magnitude of the rounded value is the rounded magnitude. -/
theorem abs_f32 (x : ℚ) (hx : x ≠ 0) : |f32 x| = roundMag 24 (-126) |x| := by
  unfold f32 roundBinary
  rcases lt_or_gt_of_ne hx with h | h
  · have h1 : ¬ (0 < x) := not_lt.mpr h.le
    simp only [hx, h1, if_false]
    rw [abs_neg, abs_of_neg h, abs_of_nonneg (roundMag_nonneg _ _ _ (by linarith))]
  · simp only [hx, h, if_false, if_true]
    rw [abs_of_pos h, abs_of_nonneg (roundMag_nonneg _ _ _ h)]

/-- Rounding a difference to binary32 does not carry its magnitude across a binary32
number `c = N0 * 2 ^ j`. -/
theorem abs_f32_bounds (x : ℚ) (N0 : ℕ) (j : ℤ) (hN : N0 < 2 ^ 24) (hj : -149 ≤ j) :
    (|x| ≤ (N0 : ℚ) * (2 : ℚ) ^ j → |f32 x| ≤ (N0 : ℚ) * (2 : ℚ) ^ j) ∧
    ((N0 : ℚ) * (2 : ℚ) ^ j ≤ |x| → (N0 : ℚ) * (2 : ℚ) ^ j ≤ |f32 x|) := by
  by_cases hx : x = 0
  · subst hx
    rw [f32_zero]
    exact ⟨fun h => h, fun h => h⟩
  · rw [abs_f32 x hx]
    exact roundMag_f32_bounds |x| (abs_pos.mpr hx) N0 j hN hj

/-- A difference of at most 10 is never found above the threshold. -/
theorem abs_f32_le_ten (x : ℚ) (h : |x| ≤ 10) : |f32 x| ≤ 10 := by
  have := (abs_f32_bounds x 5 1 (by norm_num) (by norm_num)).1
  norm_num at this
  exact this h

/-- A difference of `10 + 2 ^ -20` (the binary32 number after 10) or more is always found
above the threshold. -/
theorem ten_lt_abs_f32 (x : ℚ) (h : 10 + 1 / 2 ^ 20 ≤ |x|) : 10 < |f32 x| := by
  have := (abs_f32_bounds x 10485761 (-20) (by norm_num) (by norm_num)).2
  norm_num at this h
  have h2 := this h
  linarith

/-- A difference of 5 or more is never found within the stability tolerance. -/
theorem five_le_abs_f32 (x : ℚ) (h : 5 ≤ |x|) : 5 ≤ |f32 x| := by
  have := (abs_f32_bounds x 5 0 (by norm_num) (by norm_num)).2
  norm_num at this
  exact this h

/-- A difference of at most `5 - 2 ^ -21` (the binary32 number before 5) is always found
within the stability tolerance. -/
theorem abs_f32_lt_five (x : ℚ) (h : |x| ≤ 5 - 1 / 2 ^ 21) : |f32 x| < 5 := by
  have := (abs_f32_bounds x 10485759 (-21) (by norm_num) (by norm_num)).1
  norm_num at this h
  have h2 := this h
  linarith

/-! ## The sensor reading -/

theorem echoToDistance_cases (duration : Nat) :
    echoToDistance duration = -1 ∨
      (2 ≤ echoToDistance duration ∧ echoToDistance duration ≤ 400) := by
  unfold echoToDistance
  by_cases h1 : duration = 0
  · left; simp [h1]
  · by_cases h2 : (duration : ℚ) / 58.2 < 2 ∨ (duration : ℚ) / 58.2 > 400
    · left; simp [h1, h2]
    · right
      simp only [h1, h2, if_false]
      simp only [not_or, not_lt, gt_iff_lt] at h2
      exact h2

theorem echoReading_cases (duration : Nat) :
    echoReading duration = -1 ∨
      (2 ≤ echoReading duration ∧ echoReading duration ≤ 400) := by
  unfold echoReading
  by_cases h1 : duration = 0
  · left; simp [h1]
  · by_cases h2 : f32 (f64 ((duration : ℚ) / f64 58.2)) < 2
        ∨ f32 (f64 ((duration : ℚ) / f64 58.2)) > 400
    · left; simp [h1, h2]
    · right
      simp only [h1, h2, if_false]
      simp only [not_or, not_lt, gt_iff_lt] at h2
      exact h2

theorem echoReading_pos (duration : Nat) (h : 0 ≤ echoReading duration) :
    0 < echoReading duration := by
  rcases echoReading_cases duration with h1 | h1
  · rw [h1] at h; norm_num at h
  · linarith [h1.1]

/-! ## Calls of `loop()` -/

theorem stateQuickCheck_trace (e : Env) (m : Machine) :
    ∃ r, (stateQuickCheck e m).trace = m.trace ++ Event.sensorRead :: r := by
  unfold stateQuickCheck refreshBaseline
  simp only [millis, readUltrasonicDistance, updateBaseline, enterDeepSleep]
  split_ifs <;> simp

theorem endOfLoop_trace (m : Machine) : (endOfLoop m).trace = m.trace := by
  unfold endOfLoop; split_ifs <;> rfl

theorem endOfLoop_awake (m : Machine) (ha : m.asleep = none) : endOfLoop m = delay 1000 m := by
  simp [endOfLoop, ha]

theorem loop_quick_check (e : Env) (fuel : Nat) (m : Machine)
    (hs : m.rtc.g_state = STATE_QUICK_CHECK) :
    loop e fuel m = some (endOfLoop (stateQuickCheck e m)) := by
  simp [loop, hs]

theorem loop_deep_sleep (e : Env) (fuel : Nat) (m : Machine)
    (hs : m.rtc.g_state = STATE_DEEP_SLEEP) :
    loop e fuel m = some (endOfLoop (resetState m)) := by
  simp [loop, hs]

/-- When a handler has returned with `g_state = STATE_DEEP_SLEEP` and without a sleep
request, the next two calls of `loop()` bring the program back into `stateQuickCheck`,
which polls the sensor again. -/
theorem loops_after_deep_sleep_state (e : Env) (fuel : Nat) (m : Machine)
    (hs : m.rtc.g_state = STATE_DEEP_SLEEP) (ha : m.asleep = none) :
    ∃ m2 r, loops e fuel 2 m = some m2 ∧ m2.trace = m.trace ++ Event.sensorRead :: r := by
  have h1 : endOfLoop (resetState m) = delay 1000 (resetState m) := endOfLoop_awake _ ha
  have h2 : (delay 1000 (resetState m)).asleep = none := ha
  have h3 : (delay 1000 (resetState m)).rtc.g_state = STATE_QUICK_CHECK := rfl
  have h5 : loops e fuel 2 m
      = some (endOfLoop (stateQuickCheck e (delay 1000 (resetState m)))) := by
    simp only [loops, ha, Option.isSome_none, Bool.false_eq_true, if_false,
      loop_deep_sleep e fuel m hs, h1, h2, loop_quick_check e fuel _ h3]
  obtain ⟨r, hr⟩ := stateQuickCheck_trace e (delay 1000 (resetState m))
  exact ⟨_, r, h5, by rw [endOfLoop_trace, hr]; rfl⟩

/-- A pass through `stateQuickCheck` that returns with `g_state = STATE_DEEP_SLEEP` and
no sleep request is followed, two calls of `loop()` later, by another poll of the sensor. -/
theorem loops_quick_check_returns (e : Env) (fuel : Nat) (m : Machine)
    (hs : m.rtc.g_state = STATE_QUICK_CHECK) (ha : m.asleep = none)
    (hs1 : (stateQuickCheck e m).rtc.g_state = STATE_DEEP_SLEEP)
    (ha1 : (stateQuickCheck e m).asleep = none) :
    ∃ m3 r, loops e fuel 3 m = some m3 ∧
      m3.trace = (stateQuickCheck e m).trace ++ Event.sensorRead :: r := by
  have h1 : loops e fuel 3 m = loops e fuel 2 (delay 1000 (stateQuickCheck e m)) := by
    conv_lhs => unfold loops
    simp only [ha, Option.isSome_none, Bool.false_eq_true, if_false,
      loop_quick_check e fuel m hs, endOfLoop_awake _ ha1]
  rw [h1]
  exact loops_after_deep_sleep_state e fuel (delay 1000 (stateQuickCheck e m)) hs1 ha1

/-! ## `stateQuickCheck` without a usable baseline or reading -/

theorem stateQuickCheck_failed_read (e : Env) (m : Machine)
    (hd : echoReading (e.pulse m.nPulse) < 0) :
    stateQuickCheck e m =
      { m with rtc := { m.rtc with g_state := STATE_DEEP_SLEEP },
               clock := m.clock + e.drift m.nMillis, nMillis := m.nMillis + 1,
               nPulse := m.nPulse + 1, trace := m.trace ++ [Event.sensorRead] } := by
  simp [stateQuickCheck, millis, readUltrasonicDistance, hd]

theorem stateQuickCheck_first_baseline (e : Env) (m : Machine)
    (hb : m.rtc.g_baseline_distance < 0) (hd : 0 ≤ echoReading (e.pulse m.nPulse)) :
    stateQuickCheck e m =
      { m with rtc := { m.rtc with
                 g_baseline_distance := echoReading (e.pulse m.nPulse),
                 g_last_baseline_update :=
                   (m.clock + e.drift m.nMillis + e.drift (m.nMillis + 1)) % UINT32_SIZE,
                 g_state := STATE_DEEP_SLEEP },
               clock := m.clock + e.drift m.nMillis + e.drift (m.nMillis + 1),
               nMillis := m.nMillis + 2,
               nPulse := m.nPulse + 1, trace := m.trace ++ [Event.sensorRead] } := by
  have hpos := echoReading_pos _ hd
  simp [stateQuickCheck, millis, readUltrasonicDistance, updateBaseline, not_lt.mpr hd, hb, hpos]

/-- C3 (where the code departs from the claim). With the baseline unset and a valid
reading `d`, `stateQuickCheck` sets the baseline to `d`, stamps `g_last_baseline_update`
with the current time and does not enter ActiveMonitor; but it returns with
`g_state = STATE_DEEP_SLEEP` and without any sleep request, and the following calls of
`loop()` run `stateQuickCheck` again: the sensor is polled a second time before a sleep
request has been issued. -/
theorem quick_check_first_baseline_polls_again (e : Env) (fuel : Nat) (m : Machine)
    (hs : m.rtc.g_state = STATE_QUICK_CHECK) (ha : m.asleep = none)
    (hb : m.rtc.g_baseline_distance < 0) (hd : 0 ≤ echoReading (e.pulse m.nPulse)) :
    (stateQuickCheck e m).rtc.g_baseline_distance = echoReading (e.pulse m.nPulse) ∧
    (stateQuickCheck e m).rtc.g_last_baseline_update
      = (stateQuickCheck e m).clock % UINT32_SIZE ∧
    (stateQuickCheck e m).rtc.g_state = STATE_DEEP_SLEEP ∧
    (stateQuickCheck e m).asleep = none ∧
    (stateQuickCheck e m).trace = m.trace ++ [Event.sensorRead] ∧
    ∃ m3 r, loops e fuel 3 m = some m3 ∧
      m3.trace = m.trace ++ Event.sensorRead :: Event.sensorRead :: r := by
  have h := stateQuickCheck_first_baseline e m hb hd
  have hs1 : (stateQuickCheck e m).rtc.g_state = STATE_DEEP_SLEEP := by rw [h]
  have ha1 : (stateQuickCheck e m).asleep = none := by rw [h]; exact ha
  have ht : (stateQuickCheck e m).trace = m.trace ++ [Event.sensorRead] := by rw [h]
  obtain ⟨m3, r, h3, hr⟩ := loops_quick_check_returns e fuel m hs ha hs1 ha1
  refine ⟨by rw [h], by rw [h], hs1, ha1, ht, m3, r, h3, ?_⟩
  rw [hr, ht]; simp

theorem quick_check_first_baseline_polls_again_witness :
    (setup (Env.steady WakeCause.other 0 2910) Rtc.coldBoot).rtc.g_state = STATE_QUICK_CHECK ∧
    (setup (Env.steady WakeCause.other 0 2910) Rtc.coldBoot).asleep = none ∧
    (setup (Env.steady WakeCause.other 0 2910) Rtc.coldBoot).rtc.g_baseline_distance < 0 ∧
    (stateQuickCheck (Env.steady WakeCause.other 0 2910)
      (setup (Env.steady WakeCause.other 0 2910) Rtc.coldBoot)).rtc.g_baseline_distance = 50 ∧
    (stateQuickCheck (Env.steady WakeCause.other 0 2910)
      (setup (Env.steady WakeCause.other 0 2910) Rtc.coldBoot)).asleep = none ∧
    ∃ m3 r, loops (Env.steady WakeCause.other 0 2910) 0 3
        (setup (Env.steady WakeCause.other 0 2910) Rtc.coldBoot) = some m3 ∧
      m3.trace = [] ++ Event.sensorRead :: Event.sensorRead :: r := by
  have hd : (0 : ℚ) ≤ echoReading
      ((Env.steady WakeCause.other 0 2910).pulse
        (setup (Env.steady WakeCause.other 0 2910) Rtc.coldBoot).nPulse) := by
    decide!
  have hb : (setup (Env.steady WakeCause.other 0 2910) Rtc.coldBoot).rtc.g_baseline_distance
      < 0 := by
    norm_num [setup, Env.steady, Rtc.coldBoot, Machine.wake, delay]
  have h := quick_check_first_baseline_polls_again (Env.steady WakeCause.other 0 2910) 0
    (setup (Env.steady WakeCause.other 0 2910) Rtc.coldBoot) rfl rfl hb hd
  refine ⟨rfl, rfl, hb, ?_, h.2.2.2.1, h.2.2.2.2.2⟩
  rw [h.1]
  decide!

/-- C4 (where the code departs from the claim). When the sensor returns no reading,
`stateQuickCheck` leaves baseline, timestamps, counters and `g_motion_active` as they
were; but it returns with `g_state = STATE_DEEP_SLEEP` and without any sleep request,
and the following calls of `loop()` run `stateQuickCheck` again: the sensor is polled a
second time before a sleep request has been issued. -/
theorem quick_check_failed_read_polls_again (e : Env) (fuel : Nat) (m : Machine)
    (hs : m.rtc.g_state = STATE_QUICK_CHECK) (ha : m.asleep = none)
    (hd : echoReading (e.pulse m.nPulse) < 0) :
    (stateQuickCheck e m).rtc = { m.rtc with g_state := STATE_DEEP_SLEEP } ∧
    (stateQuickCheck e m).asleep = none ∧
    (stateQuickCheck e m).trace = m.trace ++ [Event.sensorRead] ∧
    ∃ m3 r, loops e fuel 3 m = some m3 ∧
      m3.trace = m.trace ++ Event.sensorRead :: Event.sensorRead :: r := by
  have h := stateQuickCheck_failed_read e m hd
  have hs1 : (stateQuickCheck e m).rtc.g_state = STATE_DEEP_SLEEP := by rw [h]
  have ha1 : (stateQuickCheck e m).asleep = none := by rw [h]; exact ha
  have ht : (stateQuickCheck e m).trace = m.trace ++ [Event.sensorRead] := by rw [h]
  obtain ⟨m3, r, h3, hr⟩ := loops_quick_check_returns e fuel m hs ha hs1 ha1
  refine ⟨by rw [h], ha1, ht, m3, r, h3, ?_⟩
  rw [hr, ht]; simp

theorem quick_check_failed_read_polls_again_witness :
    (setup (Env.steady WakeCause.timer 0 0) Rtc.coldBoot).rtc.g_state = STATE_QUICK_CHECK ∧
    (setup (Env.steady WakeCause.timer 0 0) Rtc.coldBoot).asleep = none ∧
    echoReading ((Env.steady WakeCause.timer 0 0).pulse
      (setup (Env.steady WakeCause.timer 0 0) Rtc.coldBoot).nPulse) < 0 ∧
    (stateQuickCheck (Env.steady WakeCause.timer 0 0)
      (setup (Env.steady WakeCause.timer 0 0) Rtc.coldBoot)).asleep = none ∧
    ∃ m3 r, loops (Env.steady WakeCause.timer 0 0) 0 3
        (setup (Env.steady WakeCause.timer 0 0) Rtc.coldBoot) = some m3 ∧
      m3.trace = [] ++ Event.sensorRead :: Event.sensorRead :: r := by
  have hd : echoReading ((Env.steady WakeCause.timer 0 0).pulse
      (setup (Env.steady WakeCause.timer 0 0) Rtc.coldBoot).nPulse) < 0 := by
    decide!
  have h := quick_check_failed_read_polls_again (Env.steady WakeCause.timer 0 0) 0
    (setup (Env.steady WakeCause.timer 0 0) Rtc.coldBoot) rfl rfl hd
  exact ⟨rfl, rfl, hd, h.2.1, h.2.2.2⟩

/-! ## `stateQuickCheck` with a baseline and a valid reading -/

theorem refreshBaseline_unchanged (e : Env) (m : Machine) (d : ℚ) :
    (refreshBaseline e m d).rtc.g_state = m.rtc.g_state ∧
    (refreshBaseline e m d).rtc.g_last_motion_time = m.rtc.g_last_motion_time ∧
    (refreshBaseline e m d).rtc.g_last_upload_time = m.rtc.g_last_upload_time ∧
    (refreshBaseline e m d).rtc.g_motion_event_count = m.rtc.g_motion_event_count ∧
    (refreshBaseline e m d).rtc.g_total_uploads = m.rtc.g_total_uploads ∧
    (refreshBaseline e m d).rtc.g_boot_count = m.rtc.g_boot_count ∧
    (refreshBaseline e m d).rtc.g_motion_active = m.rtc.g_motion_active ∧
    (refreshBaseline e m d).trace = m.trace ∧
    (refreshBaseline e m d).asleep = m.asleep ∧
    (refreshBaseline e m d).nPulse = m.nPulse := by
  unfold refreshBaseline updateBaseline
  simp only [millis]
  split_ifs <;> simp

/-- What `stateQuickCheck` does after the refresh step when the reading is a candidate. -/
theorem stateQuickCheck_motion (e : Env) (m : Machine)
    (hb : 0 ≤ m.rtc.g_baseline_distance) (hd : 0 ≤ echoReading (e.pulse m.nPulse))
    (hm : detectMotion (refreshBaseline e (readUltrasonicDistance e (millis e m).2).2
      (echoReading (e.pulse m.nPulse))) (echoReading (e.pulse m.nPulse)) = true) :
    stateQuickCheck e m =
      (fun r : Machine =>
        { r with
          rtc := { r.rtc with
            g_motion_active := true,
            g_last_motion_time := (r.clock + e.drift r.nMillis) % UINT32_SIZE,
            g_motion_event_count := incr32 r.rtc.g_motion_event_count,
            g_state := STATE_ACTIVE_MONITOR },
          clock := r.clock + e.drift r.nMillis, nMillis := r.nMillis + 1 })
      (refreshBaseline e (readUltrasonicDistance e (millis e m).2).2
        (echoReading (e.pulse m.nPulse))) := by
  have h1 : ¬ (echoReading (e.pulse m.nPulse) < 0) := not_lt.mpr hd
  have h2 : ¬ (m.rtc.g_baseline_distance < 0) := not_lt.mpr hb
  have h3 : (readUltrasonicDistance e (millis e m).2).1 = echoReading (e.pulse m.nPulse) := rfl
  have h4 : (readUltrasonicDistance e (millis e m).2).2.rtc = m.rtc := rfl
  unfold stateQuickCheck
  simp only [h3, h4, h1, h2, if_false, hm, if_true]
  rfl

/-- What `stateQuickCheck` does after the refresh step when the reading is no candidate. -/
theorem stateQuickCheck_no_motion (e : Env) (m : Machine)
    (hb : 0 ≤ m.rtc.g_baseline_distance) (hd : 0 ≤ echoReading (e.pulse m.nPulse))
    (hm : detectMotion (refreshBaseline e (readUltrasonicDistance e (millis e m).2).2
      (echoReading (e.pulse m.nPulse))) (echoReading (e.pulse m.nPulse)) = false) :
    stateQuickCheck e m =
      (fun r : Machine =>
        if r.rtc.g_last_motion_time > 0 then
          if sub32 (millis e r).1 r.rtc.g_last_motion_time > QUIET_PERIOD_THRESHOLD_MS then
            enterDeepSleep DEEP_SLEEP_EXTENDED_MS (millis e r).2
          else enterDeepSleep DEEP_SLEEP_NORMAL_MS (millis e r).2
        else enterDeepSleep DEEP_SLEEP_NORMAL_MS r)
      (refreshBaseline e (readUltrasonicDistance e (millis e m).2).2
        (echoReading (e.pulse m.nPulse))) := by
  have h1 : ¬ (echoReading (e.pulse m.nPulse) < 0) := not_lt.mpr hd
  have h2 : ¬ (m.rtc.g_baseline_distance < 0) := not_lt.mpr hb
  have h3 : (readUltrasonicDistance e (millis e m).2).1 = echoReading (e.pulse m.nPulse) := rfl
  have h4 : (readUltrasonicDistance e (millis e m).2).2.rtc = m.rtc := rfl
  unfold stateQuickCheck
  simp only [h3, h4, h1, h2, if_false, hm]
  rfl

theorem refreshBaseline_not_due (e : Env) (m : Machine) (d : ℚ)
    (hr : ¬ (BASELINE_UPDATE_INTERVAL_MS < sub32 (millis e m).1 m.rtc.g_last_baseline_update
      ∧ m.rtc.g_motion_active = false)) :
    refreshBaseline e m d = (millis e m).2 := by
  unfold refreshBaseline
  have h : (millis e m).2.rtc = m.rtc := rfl
  simp only [h, gt_iff_lt, hr, if_false]

theorem detectMotion_eq_true (m : Machine) (d : ℚ) (hb : 0 ≤ m.rtc.g_baseline_distance)
    (hd : 0 ≤ d) (hc : MOTION_THRESHOLD_CM < |f32 (d - m.rtc.g_baseline_distance)|) :
    detectMotion m d = true := by
  simp [detectMotion, not_lt.mpr hb, not_lt.mpr hd, hc]

/-- What `detectMotion` computes. -/
theorem detectMotion_eq_true_iff (m : Machine) (d : ℚ) :
    detectMotion m d = true ↔
      0 ≤ m.rtc.g_baseline_distance ∧ 0 ≤ d ∧
        MOTION_THRESHOLD_CM < |f32 (d - m.rtc.g_baseline_distance)| := by
  unfold detectMotion
  by_cases h : m.rtc.g_baseline_distance < 0 ∨ d < 0
  · simp only [h, if_true, Bool.false_eq_true, false_iff, not_and, not_lt]
    intro h1 h2
    rcases h with h | h <;> linarith
  · simp only [h, if_false, gt_iff_lt, decide_eq_true_eq]
    simp only [not_or, not_lt] at h
    exact ⟨fun h1 => ⟨h.1, h.2, h1⟩, fun h1 => h1.2.2⟩

/-- A reading that `detectMotion` finds a candidate is more than the threshold away from
the baseline: rounding the difference to binary32 never carries it across 10. -/
theorem detectMotion_sound (m : Machine) (d : ℚ) (h : detectMotion m d = true) :
    0 ≤ m.rtc.g_baseline_distance ∧ 0 ≤ d ∧
      MOTION_THRESHOLD_CM < |d - m.rtc.g_baseline_distance| := by
  obtain ⟨h1, h2, h3⟩ := (detectMotion_eq_true_iff m d).mp h
  refine ⟨h1, h2, ?_⟩
  by_contra hc
  have h4 := abs_f32_le_ten _ (not_lt.mp hc)
  unfold MOTION_THRESHOLD_CM at h3 hc
  linarith

/-- A valid reading `10 + 2 ^ -20` cm or more away from a set baseline is always found a
candidate. -/
theorem detectMotion_of_margin (m : Machine) (d : ℚ) (hb : 0 ≤ m.rtc.g_baseline_distance)
    (hd : 0 ≤ d)
    (hc : MOTION_THRESHOLD_CM + 1 / 2 ^ 20 ≤ |d - m.rtc.g_baseline_distance|) :
    detectMotion m d = true :=
  detectMotion_eq_true m d hb hd (ten_lt_abs_f32 _ hc)

/-- C8, as amended. With a set baseline `b` that is not refreshed in this run and a valid
reading `d` whose difference from `b`, computed in binary32 as the program does, exceeds
the threshold (`|fl(d - b)| > MOTION_THRESHOLD_CM`, which holds whenever
`|d - b| >= 10 + 2^-20`), `stateQuickCheck` sets `g_motion_active`, sets
`g_last_motion_time` to the current time, increments `g_motion_event_count` (the `++` of
a `uint32_t`), sets the state to ActiveMonitor and issues no sleep request; every other
RTC variable, the baseline, `g_total_uploads` and `g_last_upload_time` among them, keeps
its value. -/
theorem quick_check_candidate_motion (e : Env) (m : Machine)
    (hb : 0 ≤ m.rtc.g_baseline_distance)
    (hd : 0 ≤ echoReading (e.pulse m.nPulse))
    (hr : ¬ (BASELINE_UPDATE_INTERVAL_MS
        < sub32 (millis e (millis e m).2).1 m.rtc.g_last_baseline_update
      ∧ m.rtc.g_motion_active = false))
    (hc : MOTION_THRESHOLD_CM
          < |f32 (echoReading (e.pulse m.nPulse) - m.rtc.g_baseline_distance)| ∨
        MOTION_THRESHOLD_CM + 1 / 2 ^ 20
          ≤ |echoReading (e.pulse m.nPulse) - m.rtc.g_baseline_distance|) :
    (stateQuickCheck e m).rtc =
      { m.rtc with
        g_motion_active := true,
        g_last_motion_time := (stateQuickCheck e m).clock % UINT32_SIZE,
        g_motion_event_count := incr32 m.rtc.g_motion_event_count,
        g_state := STATE_ACTIVE_MONITOR } ∧
    (stateQuickCheck e m).asleep = m.asleep ∧
    (stateQuickCheck e m).trace = m.trace ++ [Event.sensorRead] := by
  have h1 : refreshBaseline e (readUltrasonicDistance e (millis e m).2).2
      (echoReading (e.pulse m.nPulse))
      = (millis e (readUltrasonicDistance e (millis e m).2).2).2 :=
    refreshBaseline_not_due e _ _ hr
  have h2 := stateQuickCheck_motion e m hb hd (by
    rw [h1]
    rcases hc with hc | hc
    · exact detectMotion_eq_true _ _ hb hd hc
    · exact detectMotion_of_margin _ _ hb hd hc)
  rw [h1] at h2
  rw [h2]
  exact ⟨rfl, rfl, rfl⟩

theorem quick_check_candidate_motion_witness :
    (0 : ℚ) ≤ 50 ∧
    echoReading 2037 = 35 ∧
    MOTION_THRESHOLD_CM < |f32 (echoReading 2037 - 50)| ∧
    (stateQuickCheck (Env.steady WakeCause.timer 20000 2037)
      (setup (Env.steady WakeCause.timer 20000 2037)
        { Rtc.coldBoot with g_baseline_distance := 50, g_last_baseline_update := 10000 })).rtc
      = { g_state := STATE_ACTIVE_MONITOR, g_baseline_distance := 50,
          g_last_motion_time := 20500, g_last_upload_time := 0,
          g_last_baseline_update := 10000, g_motion_event_count := 1, g_total_uploads := 0,
          g_boot_count := 1, g_motion_active := true } ∧
    (stateQuickCheck (Env.steady WakeCause.timer 20000 2037)
      (setup (Env.steady WakeCause.timer 20000 2037)
        { Rtc.coldBoot with g_baseline_distance := 50, g_last_baseline_update := 10000 })).asleep
      = none := by
  have hc : MOTION_THRESHOLD_CM < |f32 (echoReading 2037 - 50)| := by decide!
  have h := quick_check_candidate_motion (Env.steady WakeCause.timer 20000 2037)
    (setup (Env.steady WakeCause.timer 20000 2037)
      { Rtc.coldBoot with g_baseline_distance := 50, g_last_baseline_update := 10000 })
    (by decide!) (by decide!) (by decide) (Or.inl hc)
  refine ⟨by norm_num, by decide!, hc, ?_, h.2.1⟩
  rw [h.1]
  decide!

/-- C8 as stated fails: the baseline is the reading of a 118 us echo (2.0274913 cm), the
reading that of a 700 us echo (12.0274916 cm), no refresh is due. The reading is valid and
`|d - b| = 10 + 2^-22 > MOTION_THRESHOLD_CM`, but the binary32 difference is 10, so
`stateQuickCheck` finds no motion: it keeps the state and `g_motion_active` and requests a
sleep. -/
theorem quick_check_difference_rounds_to_threshold :
    (0 : ℚ) ≤ Rtc.nearObject.g_baseline_distance ∧
    0 ≤ echoReading 700 ∧
    MOTION_THRESHOLD_CM < |echoReading 700 - Rtc.nearObject.g_baseline_distance| ∧
    ¬ (BASELINE_UPDATE_INTERVAL_MS
        < sub32 (millis (Env.steady WakeCause.timer 20000 700)
            (millis (Env.steady WakeCause.timer 20000 700)
              (setup (Env.steady WakeCause.timer 20000 700) Rtc.nearObject)).2).1
          Rtc.nearObject.g_last_baseline_update
      ∧ Rtc.nearObject.g_motion_active = false) ∧
    (stateQuickCheck (Env.steady WakeCause.timer 20000 700)
      (setup (Env.steady WakeCause.timer 20000 700) Rtc.nearObject)).rtc.g_state
        = STATE_QUICK_CHECK ∧
    (stateQuickCheck (Env.steady WakeCause.timer 20000 700)
      (setup (Env.steady WakeCause.timer 20000 700) Rtc.nearObject)).rtc.g_motion_active
        = false ∧
    (stateQuickCheck (Env.steady WakeCause.timer 20000 700)
      (setup (Env.steady WakeCause.timer 20000 700) Rtc.nearObject)).asleep
        = some DEEP_SLEEP_NORMAL_MS := by
  decide!

/-- C7, as amended. With a set baseline, a valid reading and no candidate motion,
`stateQuickCheck` requests `DEEP_SLEEP_EXTENDED_MS` exactly when a motion time is recorded
(`g_last_motion_time > 0`) and `now - g_last_motion_time > QUIET_PERIOD_THRESHOLD_MS`, and
`DEEP_SLEEP_NORMAL_MS` otherwise. -/
theorem quick_check_sleep_duration (e : Env) (m : Machine)
    (hb : 0 ≤ m.rtc.g_baseline_distance) (hd : 0 ≤ echoReading (e.pulse m.nPulse))
    (hm : detectMotion (refreshBaseline e (readUltrasonicDistance e (millis e m).2).2
      (echoReading (e.pulse m.nPulse))) (echoReading (e.pulse m.nPulse)) = false) :
    (stateQuickCheck e m).asleep = some
      (if 0 < m.rtc.g_last_motion_time ∧ QUIET_PERIOD_THRESHOLD_MS
            < sub32 ((stateQuickCheck e m).clock % UINT32_SIZE) m.rtc.g_last_motion_time
        then DEEP_SLEEP_EXTENDED_MS else DEEP_SLEEP_NORMAL_MS) ∧
    (stateQuickCheck e m).trace = m.trace ++ [Event.sensorRead, Event.deepSleep
      (if 0 < m.rtc.g_last_motion_time ∧ QUIET_PERIOD_THRESHOLD_MS
            < sub32 ((stateQuickCheck e m).clock % UINT32_SIZE) m.rtc.g_last_motion_time
        then DEEP_SLEEP_EXTENDED_MS else DEEP_SLEEP_NORMAL_MS)] := by
  have h := stateQuickCheck_no_motion e m hb hd hm
  obtain ⟨-, h2, -, -, -, -, -, h8, -, -⟩ := refreshBaseline_unchanged e
    (readUltrasonicDistance e (millis e m).2).2 (echoReading (e.pulse m.nPulse))
  have h2' : (refreshBaseline e (readUltrasonicDistance e (millis e m).2).2
      (echoReading (e.pulse m.nPulse))).rtc.g_last_motion_time
      = m.rtc.g_last_motion_time := h2
  have h8' : (refreshBaseline e (readUltrasonicDistance e (millis e m).2).2
      (echoReading (e.pulse m.nPulse))).trace = m.trace ++ [Event.sensorRead] := h8
  generalize refreshBaseline e (readUltrasonicDistance e (millis e m).2).2
      (echoReading (e.pulse m.nPulse)) = r at h h2' h8'
  rw [h]
  simp only [h2', gt_iff_lt]
  by_cases hl : 0 < m.rtc.g_last_motion_time
  · by_cases hq : QUIET_PERIOD_THRESHOLD_MS < sub32 (millis e r).1 m.rtc.g_last_motion_time
    · have hq' : QUIET_PERIOD_THRESHOLD_MS <
          sub32 ((enterDeepSleep DEEP_SLEEP_EXTENDED_MS (millis e r).2).clock % UINT32_SIZE)
            m.rtc.g_last_motion_time := hq
      simp only [hl, hq, if_true, hq', and_self]
      simp [enterDeepSleep, millis, h8']
    · have hq' : ¬ QUIET_PERIOD_THRESHOLD_MS <
          sub32 ((enterDeepSleep DEEP_SLEEP_NORMAL_MS (millis e r).2).clock % UINT32_SIZE)
            m.rtc.g_last_motion_time := hq
      simp only [hl, hq, if_true, if_false, hq', and_false]
      simp [enterDeepSleep, millis, h8']
  · simp only [hl, if_false, false_and]
    simp [enterDeepSleep, h8']

theorem quick_check_sleep_duration_witness :
    (0 : ℚ) ≤ (setup Env.quiet Rtc.neverMoved).rtc.g_baseline_distance ∧
    0 ≤ echoReading 2910 ∧
    (stateQuickCheck Env.quiet (setup Env.quiet Rtc.neverMoved)).asleep
      = some DEEP_SLEEP_NORMAL_MS ∧
    (stateQuickCheck Env.quiet (setup Env.quiet Rtc.neverMoved)).trace
      = [Event.sensorRead, Event.deepSleep DEEP_SLEEP_NORMAL_MS] := by
  have hb : (0 : ℚ) ≤ (setup Env.quiet Rtc.neverMoved).rtc.g_baseline_distance := by decide!
  have hd : (0 : ℚ) ≤ echoReading 2910 := by decide!
  have h := quick_check_sleep_duration Env.quiet (setup Env.quiet Rtc.neverMoved) hb hd
    (by decide!)
  refine ⟨hb, hd, ?_, ?_⟩
  · rw [h.1]; decide!
  · rw [h.2]; decide!

/-- C7 as stated fails: a device that has never recorded motion (`g_last_motion_time = 0`)
is woken 400 s after boot, reads the baseline distance and finds no candidate motion;
`now - g_last_motion_time` exceeds `QUIET_PERIOD_THRESHOLD_MS`, yet the sleep requested is
`DEEP_SLEEP_NORMAL_MS`, not `DEEP_SLEEP_EXTENDED_MS`. -/
theorem quick_check_quiet_without_motion_record :
    (0 : ℚ) ≤ Rtc.neverMoved.g_baseline_distance ∧
    0 ≤ echoReading (Env.quiet.pulse 0) ∧
    (stateQuickCheck Env.quiet (setup Env.quiet Rtc.neverMoved)).rtc.g_state
      = STATE_QUICK_CHECK ∧
    QUIET_PERIOD_THRESHOLD_MS
      < sub32 ((stateQuickCheck Env.quiet (setup Env.quiet Rtc.neverMoved)).clock % UINT32_SIZE)
          Rtc.neverMoved.g_last_motion_time ∧
    (stateQuickCheck Env.quiet (setup Env.quiet Rtc.neverMoved)).asleep
      = some DEEP_SLEEP_NORMAL_MS ∧
    (stateQuickCheck Env.quiet (setup Env.quiet Rtc.neverMoved)).asleep
      ≠ some DEEP_SLEEP_EXTENDED_MS := by
  decide!

/-! ## `stateUploadEvent` -/

theorem uploadWait_unchanged (e : Env) (waitStart : Nat) :
    ∀ (fuel : Nat) (m m' : Machine), uploadWait e waitStart fuel m = some m' →
      m'.rtc = m.rtc ∧ m'.trace = m.trace ∧ m'.asleep = m.asleep ∧ m.clock ≤ m'.clock := by
  intro fuel
  induction fuel with
  | zero => intro m m' h; simp [uploadWait] at h
  | succ n ih =>
    intro m m' h
    unfold uploadWait at h
    simp only at h
    split_ifs at h with hc
    · have := ih _ _ h
      simp only [delay, millis] at this
      exact ⟨this.1, this.2.1, this.2.2.1, by omega⟩
    · simp only [Option.some.injEq] at h
      subst h
      simp [millis]

theorem uploadWait_returns (e : Env) (hb : BoundedDrift e) (c0 : Nat) :
    ∀ (fuel : Nat) (m : Machine), c0 ≤ m.clock → m.clock - c0 < 3050 →
      3050 ≤ (m.clock - c0) + 50 * fuel →
      ∃ m', uploadWait e (c0 % UINT32_SIZE) fuel m = some m' := by
  intro fuel
  induction fuel with
  | zero => intro m h1 h2 h3; omega
  | succ n ih =>
    intro m h1 h2 h3
    unfold uploadWait
    simp only [millis]
    have hd := hb m.nMillis
    have hs := sub32_mod_mod (m.clock + e.drift m.nMillis) c0 (by omega)
    rw [hs]
    split_ifs with hc
    · apply ih
      · simp only [delay]; omega
      · simp only [delay]; unfold UPLOAD_TIMEOUT_MS UINT32_SIZE at hc; omega
      · simp only [delay]; omega
    · exact ⟨_, rfl⟩

/-- The wait of `stateUploadEvent` ends: 61 units of fuel are enough. -/
theorem uploadWait_terminates (e : Env) (hb : BoundedDrift e) (m : Machine) :
    ∃ m', uploadWait e (millis e m).1 61 (millis e m).2 = some m' := by
  have h := uploadWait_returns e hb (m.clock + e.drift m.nMillis) 61 (millis e m).2
    (le_refl _) (by simp [millis]) (by simp [millis])
  exact h

theorem stateUploadEvent_wifi_down (e : Env) (fuel : Nat) (m : Machine)
    (hw : e.wifi m.nWifi = false) :
    stateUploadEvent e fuel m = some (enterDeepSleep DEEP_SLEEP_NORMAL_MS
      { (connectWiFi e (millis e m).2).2 with
        rtc := { m.rtc with g_motion_active := false } }) := by
  simp [stateUploadEvent, connectWiFi, millis, hw]

theorem stateUploadEvent_firebase_down (e : Env) (fuel : Nat) (m : Machine)
    (hw : e.wifi m.nWifi = true) (hf : e.firebase m.nFirebase = false) :
    stateUploadEvent e fuel m = some (enterDeepSleep DEEP_SLEEP_NORMAL_MS
      { disconnectWiFi (initFirebase e (connectWiFi e (millis e m).2).2).2 with
        rtc := { m.rtc with g_motion_active := false } }) := by
  simp [stateUploadEvent, connectWiFi, initFirebase, disconnectWiFi, millis, hw, hf]

/-- The machine on which the wait of `stateUploadEvent` starts when both WiFi and
Firebase came up (lines 340-360). -/
theorem stateUploadEvent_online (e : Env) (fuel : Nat) (m : Machine)
    (hw : e.wifi m.nWifi = true) (hf : e.firebase m.nFirebase = true) :
    ∃ m1 : Machine, m1.rtc = m.rtc ∧
      stateUploadEvent e fuel m
        = (uploadWait e (millis e m1).1 fuel (millis e m1).2).map (uploadFinish e) := by
  refine ⟨databaseSet (databaseSet (databaseSet (databaseSet (databaseSet (databaseSet
    (databaseSet (millis e (readUltrasonicDistance e (initFirebase e
      (connectWiFi e (millis e m).2).2).2).2).2)))))), rfl, ?_⟩
  have h1 : (connectWiFi e (millis e m).2).1 = true := hw
  have h2 : (initFirebase e (connectWiFi e (millis e m).2).2).1 = true := hf
  unfold stateUploadEvent
  simp only [h1, h2, Bool.true_eq_false, if_false]
  cases uploadWait e _ fuel _ <;> rfl

theorem uploadFinish_result (e : Env) (m : Machine) :
    (uploadFinish e m).rtc = { m.rtc with
        g_total_uploads := incr32 m.rtc.g_total_uploads,
        g_last_upload_time := (uploadFinish e m).clock % UINT32_SIZE,
        g_motion_active := false } ∧
    (uploadFinish e m).asleep = some DEEP_SLEEP_NORMAL_MS ∧
    (uploadFinish e m).trace
      = m.trace ++ [Event.wifiDisconnect, Event.deepSleep DEEP_SLEEP_NORMAL_MS] := by
  simp [uploadFinish, millis, disconnectWiFi, enterDeepSleep]

theorem stateUploadEvent_returns (e : Env) (hb : BoundedDrift e) (m : Machine) :
    ∃ m', stateUploadEvent e 61 m = some m' := by
  cases hw : e.wifi m.nWifi with
  | false => exact ⟨_, stateUploadEvent_wifi_down e 61 m hw⟩
  | true =>
    cases hf : e.firebase m.nFirebase with
    | false => exact ⟨_, stateUploadEvent_firebase_down e 61 m hw hf⟩
    | true =>
      obtain ⟨m1, -, h⟩ := stateUploadEvent_online e 61 m hw hf
      obtain ⟨m2, h2⟩ := uploadWait_terminates e hb m1
      exact ⟨uploadFinish e m2, by rw [h, h2]; rfl⟩

/-- C6. `stateUploadEvent` always ends (61 units of fuel are enough for its wait), and
whatever the connectivity and telemetry collaborators answer: `g_total_uploads` is
incremented (the `++` of a `uint32_t`) and `g_last_upload_time` is set to the current time
if and only if both the WiFi connect and the Firebase ready step succeed; when one of
them fails both keep their values; in all cases `g_motion_active` is false afterwards and
the last call is a sleep request of `DEEP_SLEEP_NORMAL_MS`. -/
theorem upload_event_counters (e : Env) (m : Machine) :
    (BoundedDrift e → ∃ m', stateUploadEvent e 61 m = some m') ∧
    ∀ fuel m', stateUploadEvent e fuel m = some m' →
      ((m'.rtc.g_total_uploads = incr32 m.rtc.g_total_uploads ∧
          m'.rtc.g_last_upload_time = m'.clock % UINT32_SIZE) ↔
        (e.wifi m.nWifi = true ∧ e.firebase m.nFirebase = true)) ∧
      (¬ (e.wifi m.nWifi = true ∧ e.firebase m.nFirebase = true) →
        m'.rtc.g_total_uploads = m.rtc.g_total_uploads ∧
        m'.rtc.g_last_upload_time = m.rtc.g_last_upload_time) ∧
      m'.rtc.g_motion_active = false ∧
      m'.asleep = some DEEP_SLEEP_NORMAL_MS ∧
      ∃ r, m'.trace = r ++ [Event.deepSleep DEEP_SLEEP_NORMAL_MS] := by
  refine ⟨fun hb => stateUploadEvent_returns e hb m, ?_⟩
  intro fuel m' h
  cases hw : e.wifi m.nWifi with
  | false =>
    rw [stateUploadEvent_wifi_down e fuel m hw, Option.some.injEq] at h
    subst h
    refine ⟨⟨fun h1 => absurd h1.1.symm (incr32_ne _), fun h1 => by simp at h1⟩,
      fun _ => ⟨rfl, rfl⟩, rfl, rfl, _, rfl⟩
  | true =>
    cases hf : e.firebase m.nFirebase with
    | false =>
      rw [stateUploadEvent_firebase_down e fuel m hw hf, Option.some.injEq] at h
      subst h
      refine ⟨⟨fun h1 => absurd h1.1.symm (incr32_ne _), fun h1 => by simp at h1⟩,
        fun _ => ⟨rfl, rfl⟩, rfl, rfl, _, rfl⟩
    | true =>
      obtain ⟨m1, hm1, h1⟩ := stateUploadEvent_online e fuel m hw hf
      rw [h1] at h
      cases h2 : uploadWait e (millis e m1).1 fuel (millis e m1).2 with
      | none => rw [h2] at h; simp at h
      | some m2 =>
        rw [h2] at h
        simp only [Option.map_some', Option.some.injEq] at h
        subst h
        have h3 := (uploadWait_unchanged e _ fuel _ _ h2).1
        have h4 : m2.rtc = m.rtc := by rw [h3, ← hm1]; rfl
        obtain ⟨h5, h6, h7⟩ := uploadFinish_result e m2
        refine ⟨⟨fun _ => ⟨rfl, rfl⟩, fun _ => ?_⟩, fun hn => absurd ⟨rfl, rfl⟩ hn,
          by rw [h5], h6, m2.trace ++ [Event.wifiDisconnect], ?_⟩
        · rw [h5, h4]; exact ⟨rfl, rfl⟩
        · rw [h7]; simp

theorem upload_event_counters_witness :
    BoundedDrift (Env.online WakeCause.timer 100000) ∧
    ∃ m', stateUploadEvent (Env.online WakeCause.timer 100000) 61
        (setup (Env.online WakeCause.timer 100000) Rtc.coldBoot) = some m' ∧
      m'.rtc.g_total_uploads = 1 ∧
      m'.rtc.g_last_upload_time = m'.clock % UINT32_SIZE ∧
      m'.rtc.g_motion_active = false ∧
      m'.asleep = some DEEP_SLEEP_NORMAL_MS := by
  have hb : BoundedDrift (Env.online WakeCause.timer 100000) := fun _ => by
    simp [Env.online]
  have h := upload_event_counters (Env.online WakeCause.timer 100000)
    (setup (Env.online WakeCause.timer 100000) Rtc.coldBoot)
  obtain ⟨m', hm'⟩ := h.1 hb
  obtain ⟨h1, -, h3, h4, -⟩ := h.2 61 m' hm'
  have h5 := h1.mpr ⟨rfl, rfl⟩
  exact ⟨hb, m', hm', h5.1, h5.2, h3, h4⟩

/-! ## The monitoring window -/

theorem detectMotion_congr (m m' : Machine) (d : ℚ) (h : m'.rtc = m.rtc) :
    detectMotion m' d = detectMotion m d := by
  simp [detectMotion, h]

theorem monitorSample_machine (e : Env) (m : Machine) (l : Monitor) (d : ℚ) :
    (monitorSample e m l d).1.rtc = m.rtc ∧
    (monitorSample e m l d).1.asleep = m.asleep ∧
    m.clock ≤ (monitorSample e m l d).1.clock ∧
    (monitorSample e m l d).1.clock
      ≤ m.clock + e.drift m.nMillis + e.drift (m.nMillis + 1) ∧
    (monitorSample e m l d).1.nPulse = m.nPulse ∧
    (monitorSample e m l d).1.trace = m.trace := by
  unfold monitorSample
  simp only [millis]
  split_ifs <;> simp <;> omega

theorem monitorBody_machine (e : Env) (m : Machine) (l : Monitor) :
    (monitorBody e m l).1.rtc = m.rtc ∧
    (monitorBody e m l).1.asleep = m.asleep ∧
    m.clock + 2000 ≤ (monitorBody e m l).1.clock ∧
    (monitorBody e m l).1.clock
      ≤ m.clock + e.drift m.nMillis + e.drift (m.nMillis + 1) + 2000 ∧
    (monitorBody e m l).2.startTime = l.startTime := by
  unfold monitorBody
  simp only [readUltrasonicDistance, delay, ACTIVE_MONITOR_INTERVAL_MS]
  split_ifs with h
  · have := monitorSample_machine e
      { m with nPulse := m.nPulse + 1, trace := m.trace ++ [Event.sensorRead] } l
      (echoReading (e.pulse m.nPulse))
    refine ⟨this.1, this.2.1, ?_, ?_, ?_⟩
    · have := this.2.2.1; simp only at this ⊢; omega
    · have := this.2.2.2.1; simp only at this ⊢; omega
    · unfold monitorSample
      simp only [millis]
      split_ifs <;> rfl
  · simp
    omega

theorem monitorLoop_unchanged (e : Env) :
    ∀ (fuel : Nat) (m : Machine) (l : Monitor) (m' : Machine) (l' : Monitor),
      monitorLoop e fuel m l = some (m', l') →
      m'.rtc = m.rtc ∧ m'.asleep = m.asleep ∧ m.clock ≤ m'.clock := by
  intro fuel
  induction fuel with
  | zero => intro m l m' l' h; simp [monitorLoop] at h
  | succ n ih =>
    intro m l m' l' h
    unfold monitorLoop at h
    simp only at h
    split_ifs at h with hc
    · have h1 := ih _ _ _ _ h
      have h2 := monitorBody_machine e (millis e m).2 l
      refine ⟨by rw [h1.1, h2.1]; rfl, by rw [h1.2.1, h2.2.1]; rfl, ?_⟩
      have h3 := h2.2.2.1
      have h4 := h1.2.2
      simp only [millis] at h3 h4 ⊢
      omega
    · simp only [Option.some.injEq, Prod.mk.injEq] at h
      obtain ⟨h1, -⟩ := h
      subst h1
      simp [millis]

theorem monitorLoop_returns (e : Env) (hb : BoundedDrift e) (c0 : Nat) :
    ∀ (fuel : Nat) (m : Machine) (l : Monitor), l.startTime = c0 % UINT32_SIZE →
      c0 ≤ m.clock → m.clock - c0 < 2000032000 → 1 ≤ fuel →
      (m.clock - c0 < 30000 → 32000 ≤ (m.clock - c0) + 2000 * fuel) →
      ∃ r, monitorLoop e fuel m l = some r := by
  intro fuel
  induction fuel with
  | zero => intro m l hl h1 h2 h3 h4; omega
  | succ n ih =>
    intro m l hl h1 h2 h3 h4
    unfold monitorLoop
    simp only
    have hd := hb m.nMillis
    have hs := sub32_mod_mod (m.clock + e.drift m.nMillis) c0 (by omega)
    have hm : (millis e m).1 = (m.clock + e.drift m.nMillis) % UINT32_SIZE := rfl
    rw [hm, hl, hs]
    split_ifs with hc
    · have hbody := monitorBody_machine e (millis e m).2 l
      have hc1 : (millis e m).2.clock = m.clock + e.drift m.nMillis := rfl
      have hd1 := hb (millis e m).2.nMillis
      have hd2 := hb ((millis e m).2.nMillis + 1)
      unfold ACTIVE_MONITOR_DURATION_MS UINT32_SIZE at hc
      apply ih
      · rw [hbody.2.2.2.2, hl]
      · omega
      · omega
      · omega
      · omega
    · exact ⟨_, rfl⟩

/-- The monitoring window ends: 16 units of fuel are enough. -/
theorem monitorLoop_terminates (e : Env) (hb : BoundedDrift e) (m : Machine) :
    ∃ r, monitorWindow e 16 m = some r := by
  unfold monitorWindow
  exact monitorLoop_returns e hb (m.clock + e.drift m.nMillis) 16 (millis e m).2
    (Monitor.init (millis e m).1) rfl (le_refl _) (by simp [millis]) (by norm_num)
    (by simp [millis])

theorem monitorWindow_unchanged (e : Env) (fuel : Nat) (m m1 : Machine) (l : Monitor)
    (h : monitorWindow e fuel m = some (m1, l)) :
    m1.rtc = m.rtc ∧ m1.asleep = m.asleep ∧ m.clock ≤ m1.clock := by
  unfold monitorWindow at h
  have h1 := monitorLoop_unchanged e fuel _ _ _ _ h
  refine ⟨h1.1, h1.2.1, ?_⟩
  have h2 := h1.2.2
  simp only [millis] at h2
  omega

theorem monitorDecision_not_confirmed (e : Env) (m : Machine) :
    monitorDecision e m false = enterDeepSleep DEEP_SLEEP_NORMAL_MS
      { m with rtc := { m.rtc with g_motion_active := false } } := by
  simp [monitorDecision]

theorem monitorDecision_upload (e : Env) (m : Machine)
    (hr : MIN_UPLOAD_INTERVAL_MS ≤ sub32 (millis e m).1 m.rtc.g_last_upload_time) :
    monitorDecision e m true
      = { (millis e m).2 with rtc := { m.rtc with g_state := STATE_UPLOAD_EVENT } } := by
  have h : (millis e m).2.rtc = m.rtc := rfl
  unfold monitorDecision
  simp only [if_true, h, ge_iff_le, hr]

theorem monitorDecision_rate_limited (e : Env) (m : Machine)
    (hr : ¬ MIN_UPLOAD_INTERVAL_MS ≤ sub32 (millis e m).1 m.rtc.g_last_upload_time) :
    monitorDecision e m true = enterDeepSleep DEEP_SLEEP_NORMAL_MS
      { (millis e m).2 with rtc := { m.rtc with g_motion_active := false } } := by
  have h : (millis e m).2.rtc = m.rtc := rfl
  unfold monitorDecision
  simp only [if_true, h, ge_iff_le, hr, if_false]

/-- C5. `stateActiveMonitor` always ends (16 units of fuel are enough for its window).
At the end of the window the next state is UploadEvent if and only if motion was
confirmed and `now - g_last_upload_time >= MIN_UPLOAD_INTERVAL_MS`, and then no sleep is
requested; in every other case `g_motion_active` is cleared and a sleep of
`DEEP_SLEEP_NORMAL_MS` is requested. `g_total_uploads` and `g_last_upload_time` keep their
values in all cases. -/
theorem active_monitor_decision (e : Env) (m : Machine)
    (hs : m.rtc.g_state = STATE_ACTIVE_MONITOR) :
    (BoundedDrift e → ∃ m', stateActiveMonitor e 16 m = some m') ∧
    ∀ fuel m1 l, monitorWindow e fuel m = some (m1, l) →
      ∃ m', stateActiveMonitor e fuel m = some m' ∧
        (m'.rtc.g_state = STATE_UPLOAD_EVENT ↔
          (l.motionConfirmed = true ∧
            MIN_UPLOAD_INTERVAL_MS ≤ sub32 (millis e m1).1 m.rtc.g_last_upload_time)) ∧
        (m'.rtc.g_state = STATE_UPLOAD_EVENT → m'.asleep = m.asleep ∧ m'.trace = m1.trace) ∧
        (m'.rtc.g_state ≠ STATE_UPLOAD_EVENT →
          m'.rtc.g_motion_active = false ∧ m'.asleep = some DEEP_SLEEP_NORMAL_MS ∧
          m'.trace = m1.trace ++ [Event.deepSleep DEEP_SLEEP_NORMAL_MS]) ∧
        m'.rtc.g_total_uploads = m.rtc.g_total_uploads ∧
        m'.rtc.g_last_upload_time = m.rtc.g_last_upload_time := by
  constructor
  · intro hb
    obtain ⟨⟨m1, l⟩, hr⟩ := monitorLoop_terminates e hb m
    exact ⟨monitorDecision e m1 l.motionConfirmed, by simp [stateActiveMonitor, hr]⟩
  · intro fuel m1 l hw
    obtain ⟨h1, h2, -⟩ := monitorWindow_unchanged e fuel m m1 l hw
    refine ⟨monitorDecision e m1 l.motionConfirmed, by simp [stateActiveMonitor, hw], ?_⟩
    rw [← h1, ← h2]
    rw [← h1] at hs
    have hne : STATE_ACTIVE_MONITOR ≠ STATE_UPLOAD_EVENT := by decide
    cases l.motionConfirmed with
    | false =>
      rw [monitorDecision_not_confirmed]
      refine ⟨⟨fun h => ?_, fun h => by simp at h⟩, fun h => ?_, fun _ => ⟨rfl, rfl, rfl⟩,
        rfl, rfl⟩
      · exact absurd (hs.symm.trans h) hne
      · exact absurd (hs.symm.trans h) hne
    | true =>
      by_cases hr : MIN_UPLOAD_INTERVAL_MS ≤ sub32 (millis e m1).1 m1.rtc.g_last_upload_time
      · rw [monitorDecision_upload e m1 hr]
        exact ⟨⟨fun _ => ⟨rfl, hr⟩, fun _ => rfl⟩, fun _ => ⟨rfl, rfl⟩,
          fun h => absurd rfl h, rfl, rfl⟩
      · rw [monitorDecision_rate_limited e m1 hr]
        refine ⟨⟨fun h => ?_, fun h => absurd h.2 hr⟩, fun h => ?_,
          fun _ => ⟨rfl, rfl, rfl⟩, rfl, rfl⟩
        · exact absurd (hs.symm.trans h) hne
        · exact absurd (hs.symm.trans h) hne

theorem active_monitor_decision_witness :
    (setup (Env.steady WakeCause.timer 100000 2910)
      { Rtc.neverMoved with g_state := STATE_ACTIVE_MONITOR }).rtc.g_state
        = STATE_ACTIVE_MONITOR ∧
    BoundedDrift (Env.steady WakeCause.timer 100000 2910) ∧
    ∃ m', stateActiveMonitor (Env.steady WakeCause.timer 100000 2910) 16
      (setup (Env.steady WakeCause.timer 100000 2910)
        { Rtc.neverMoved with g_state := STATE_ACTIVE_MONITOR }) = some m' := by
  have hb : BoundedDrift (Env.steady WakeCause.timer 100000 2910) := fun _ => by
    simp [Env.steady]
  exact ⟨rfl, hb, (active_monitor_decision (Env.steady WakeCause.timer 100000 2910)
    (setup (Env.steady WakeCause.timer 100000 2910)
      { Rtc.neverMoved with g_state := STATE_ACTIVE_MONITOR }) rfl).1 hb⟩

/-! ## The handling of one valid sample -/

/-- A sample that is no candidate motion, or that has no valid sample before it within the
stability tolerance, resets the sustained timer. -/
theorem monitorSample_reset (e : Env) (m : Machine) (l : Monitor) (d : ℚ)
    (h : detectMotion m d = false ∨ ¬ (0 < l.lastDistance ∧ |f32 (d - l.lastDistance)| < 5)) :
    monitorSample e m l d = ((millis e m).2,
      { l with stableMotionStart := 0, lastDistance := d,
               samples := ⟨d, (millis e m).1⟩ :: l.samples }) := by
  have hd : detectMotion (millis e m).2 d = detectMotion m d := detectMotion_congr _ _ _ rfl
  unfold monitorSample
  simp only [hd, gt_iff_lt]
  rcases h with h | h
  · simp [h]
  · simp only [h, if_false]
    split_ifs <;> rfl

/-- A stable candidate sample starts the sustained timer when it is not running. -/
theorem monitorSample_start (e : Env) (m : Machine) (l : Monitor) (d : ℚ)
    (h1 : detectMotion m d = true) (h2 : 0 < l.lastDistance ∧ |f32 (d - l.lastDistance)| < 5)
    (h3 : l.stableMotionStart = 0) :
    monitorSample e m l d = ((millis e (millis e m).2).2,
      { l with stableMotionStart := (millis e (millis e m).2).1, lastDistance := d,
               samples := ⟨d, (millis e (millis e m).2).1⟩ :: l.samples }) := by
  have hd : detectMotion (millis e m).2 d = detectMotion m d := detectMotion_congr _ _ _ rfl
  unfold monitorSample
  simp only [hd, gt_iff_lt, h1, h2, h3, if_true, and_self]

/-- A stable candidate sample taken `MOTION_CONFIRM_TIME_MS` or more after the start of
the sustained timer confirms the motion. -/
theorem monitorSample_confirm (e : Env) (m : Machine) (l : Monitor) (d : ℚ)
    (h1 : detectMotion m d = true) (h2 : 0 < l.lastDistance ∧ |f32 (d - l.lastDistance)| < 5)
    (h3 : l.stableMotionStart ≠ 0)
    (h4 : MOTION_CONFIRM_TIME_MS ≤ sub32 (millis e (millis e m).2).1 l.stableMotionStart) :
    monitorSample e m l d = ((millis e (millis e m).2).2,
      { l with motionConfirmed := true, lastDistance := d,
               samples := ⟨d, (millis e (millis e m).2).1⟩ :: l.samples }) := by
  have hd : detectMotion (millis e m).2 d = detectMotion m d := detectMotion_congr _ _ _ rfl
  unfold monitorSample
  simp only [hd, gt_iff_lt, h1, h2, h3, h4, if_true, if_false, and_self, ge_iff_le]

/-- A stable candidate sample taken earlier than that changes neither the timer nor the
confirmation. -/
theorem monitorSample_pending (e : Env) (m : Machine) (l : Monitor) (d : ℚ)
    (h1 : detectMotion m d = true) (h2 : 0 < l.lastDistance ∧ |f32 (d - l.lastDistance)| < 5)
    (h3 : l.stableMotionStart ≠ 0)
    (h4 : ¬ MOTION_CONFIRM_TIME_MS ≤ sub32 (millis e (millis e m).2).1 l.stableMotionStart) :
    monitorSample e m l d = ((millis e (millis e m).2).2,
      { l with lastDistance := d,
               samples := ⟨d, (millis e (millis e m).2).1⟩ :: l.samples }) := by
  have hd : detectMotion (millis e m).2 d = detectMotion m d := detectMotion_congr _ _ _ rfl
  unfold monitorSample
  simp only [hd, gt_iff_lt, h1, h2, h3, h4, if_true, if_false, and_self, ge_iff_le]

theorem stableRun_cons (m : Machine) (s : Sample) (rest : List Sample) (p : Sample) :
    stableRun m (s :: rest) p = true ↔
      detectMotion m s.distance = true ∧ |f32 (s.distance - (rest.headD p).distance)| < 5 ∧
        stableRun m rest p = true := by
  simp [stableRun, and_assoc]

/-- The four ways in which `monitorSample` handles a valid sample. -/
theorem monitorSample_cases (e : Env) (m : Machine) (l : Monitor) (d : ℚ) :
    (monitorSample e m l d).1.rtc = m.rtc ∧
    m.clock ≤ (monitorSample e m l d).1.clock ∧
    (monitorSample e m l d).2.samples
      = ⟨d, (monitorSample e m l d).1.clock % UINT32_SIZE⟩ :: l.samples ∧
    (monitorSample e m l d).2.lastDistance = d ∧
    (((detectMotion m d = false ∨ ¬ (0 < l.lastDistance ∧ |f32 (d - l.lastDistance)| < 5)) ∧
        (monitorSample e m l d).2.stableMotionStart = 0 ∧
        (monitorSample e m l d).2.motionConfirmed = l.motionConfirmed) ∨
     ((detectMotion m d = true ∧ (0 < l.lastDistance ∧ |f32 (d - l.lastDistance)| < 5)) ∧
      ((l.stableMotionStart = 0 ∧
        (monitorSample e m l d).2.stableMotionStart
          = (monitorSample e m l d).1.clock % UINT32_SIZE ∧
        (monitorSample e m l d).2.motionConfirmed = l.motionConfirmed) ∨
       (l.stableMotionStart ≠ 0 ∧
        MOTION_CONFIRM_TIME_MS
          ≤ sub32 ((monitorSample e m l d).1.clock % UINT32_SIZE) l.stableMotionStart ∧
        (monitorSample e m l d).2.stableMotionStart = l.stableMotionStart ∧
        (monitorSample e m l d).2.motionConfirmed = true) ∨
       (l.stableMotionStart ≠ 0 ∧
        ¬ MOTION_CONFIRM_TIME_MS
          ≤ sub32 ((monitorSample e m l d).1.clock % UINT32_SIZE) l.stableMotionStart ∧
        (monitorSample e m l d).2.stableMotionStart = l.stableMotionStart ∧
        (monitorSample e m l d).2.motionConfirmed = l.motionConfirmed)))) := by
  by_cases h1 : detectMotion m d = true
  · by_cases h2 : 0 < l.lastDistance ∧ |f32 (d - l.lastDistance)| < 5
    · by_cases h3 : l.stableMotionStart = 0
      · rw [monitorSample_start e m l d h1 h2 h3]
        refine ⟨rfl, ?_, rfl, rfl, Or.inr ⟨⟨h1, h2⟩, Or.inl ⟨h3, rfl, rfl⟩⟩⟩
        simp only [millis]; omega
      · by_cases h4 : MOTION_CONFIRM_TIME_MS
            ≤ sub32 (millis e (millis e m).2).1 l.stableMotionStart
        · rw [monitorSample_confirm e m l d h1 h2 h3 h4]
          refine ⟨rfl, ?_, rfl, rfl, Or.inr ⟨⟨h1, h2⟩, Or.inr (Or.inl ⟨h3, h4, rfl, rfl⟩)⟩⟩
          simp only [millis]; omega
        · rw [monitorSample_pending e m l d h1 h2 h3 h4]
          refine ⟨rfl, ?_, rfl, rfl, Or.inr ⟨⟨h1, h2⟩, Or.inr (Or.inr ⟨h3, h4, rfl, rfl⟩)⟩⟩
          simp only [millis]; omega
    · rw [monitorSample_reset e m l d (Or.inr h2)]
      refine ⟨rfl, ?_, rfl, rfl, Or.inl ⟨Or.inr h2, rfl, rfl⟩⟩
      simp only [millis]; omega
  · have h1' : detectMotion m d = false := by simpa using h1
    rw [monitorSample_reset e m l d (Or.inl h1')]
    refine ⟨rfl, ?_, rfl, rfl, Or.inl ⟨Or.inl h1', rfl, rfl⟩⟩
    simp only [millis]; omega

theorem confirmingRun_cons (m : Machine) (s : Sample) (samples : List Sample)
    (h : confirmingRun m samples) : confirmingRun m (s :: samples) := by
  obtain ⟨post, last, mid, first, p, pre, h1, h2, h3⟩ := h
  exact ⟨s :: post, last, mid, first, p, pre, by rw [h1]; rfl, h2, h3⟩

theorem monitorInv_init (m : Machine) (startTime : Nat) :
    MonitorInv m m (Monitor.init startTime) where
  rtc := rfl
  valid := fun s hs => by simp [Monitor.init] at hs
  last_of_cons := fun p pre h => by simp [Monitor.init] at h
  last_of_nil := fun _ => by simp [Monitor.init]
  start_le := Nat.zero_le _
  clock_pos := fun h => by simp [Monitor.init] at h
  timer_sound := fun h => by simp [Monitor.init] at h
  confirmed_sound := fun h => by simp [Monitor.init] at h
  timer_complete := fun mid first p pre h => by simp [Monitor.init] at h
  confirmed_complete := fun h => by
    obtain ⟨post, last, mid, first, p, pre, h1, -, -⟩ := h
    simp [Monitor.init] at h1

theorem monitorInv_later (m0 m m' : Machine) (l : Monitor) (h : MonitorInv m0 m l)
    (hr : m'.rtc = m.rtc) (hc : m.clock ≤ m'.clock) : MonitorInv m0 m' l where
  rtc := hr.trans h.rtc
  valid := h.valid
  last_of_cons := h.last_of_cons
  last_of_nil := h.last_of_nil
  start_le := le_trans h.start_le hc
  clock_pos := fun hs => lt_of_lt_of_le (h.clock_pos hs) hc
  timer_sound := h.timer_sound
  confirmed_sound := h.confirmed_sound
  timer_complete := h.timer_complete
  confirmed_complete := h.confirmed_complete

/-- A new sample `s` extends a stable run that reaches the most recent sample exactly when
`s` is a candidate within tolerance of `lastDistance`. -/
theorem stableRun_extend (m0 m : Machine) (l : Monitor) (h : MonitorInv m0 m l)
    (d : ℚ) (t : Nat) (mid : List Sample) (first p : Sample) (pre : List Sample)
    (hsamp : l.samples = mid ++ first :: p :: pre) :
    stableRun m0 (⟨d, t⟩ :: (mid ++ [first])) p = true ↔
      (detectMotion m d = true ∧ (0 < l.lastDistance ∧ |f32 (d - l.lastDistance)| < 5)) ∧
        stableRun m0 (mid ++ [first]) p = true := by
  have hdet : detectMotion m d = detectMotion m0 d := detectMotion_congr m0 m d h.rtc
  have hhead : ((mid ++ [first]).headD p).distance = l.lastDistance ∧ 0 < l.lastDistance := by
    cases mid with
    | nil => exact h.last_of_cons first (p :: pre) hsamp
    | cons a mid' => exact h.last_of_cons a (mid' ++ first :: p :: pre) hsamp
  rw [stableRun_cons, hhead.1, hdet]
  constructor
  · rintro ⟨h1, h2, h3⟩
    exact ⟨⟨h1, hhead.2, h2⟩, h3⟩
  · rintro ⟨⟨h1, -, h2⟩, h3⟩
    exact ⟨h1, h2, h3⟩

/-- The same for a run that starts at the new sample. -/
theorem stableRun_single (m0 m : Machine) (l : Monitor) (h : MonitorInv m0 m l)
    (d : ℚ) (t : Nat) (p : Sample) (pre : List Sample) (hsamp : l.samples = p :: pre) :
    stableRun m0 [⟨d, t⟩] p = true ↔
      (detectMotion m d = true ∧ (0 < l.lastDistance ∧ |f32 (d - l.lastDistance)| < 5)) := by
  have hdet : detectMotion m d = detectMotion m0 d := detectMotion_congr m0 m d h.rtc
  have hhead := h.last_of_cons p pre hsamp
  rw [stableRun_cons, hdet]
  simp only [List.headD_nil, hhead.1, stableRun, and_true]
  constructor
  · rintro ⟨h1, h2⟩
    exact ⟨h1, hhead.2, h2⟩
  · rintro ⟨h1, -, h2⟩
    exact ⟨h1, h2⟩

/-- The invariant survives the handling of a valid sample followed by the polling delay,
as long as the clock has not wrapped. -/
theorem monitorInv_step (m0 m m' : Machine) (l l' : Monitor) (d : ℚ)
    (h : MonitorInv m0 m l) (hv : 2 ≤ d ∧ d ≤ 400) (hr : m'.rtc = m.rtc)
    (hc : m.clock ≤ m'.clock) (hw : m'.clock < UINT32_SIZE)
    (hs : l'.samples = ⟨d, m'.clock % UINT32_SIZE⟩ :: l.samples) (hl : l'.lastDistance = d)
    (hk : ((detectMotion m d = false ∨ ¬ (0 < l.lastDistance ∧ |f32 (d - l.lastDistance)| < 5)) ∧
        l'.stableMotionStart = 0 ∧ l'.motionConfirmed = l.motionConfirmed) ∨
      ((detectMotion m d = true ∧ (0 < l.lastDistance ∧ |f32 (d - l.lastDistance)| < 5)) ∧
        ((l.stableMotionStart = 0 ∧ l'.stableMotionStart = m'.clock % UINT32_SIZE ∧
            l'.motionConfirmed = l.motionConfirmed) ∨
         (l.stableMotionStart ≠ 0 ∧
            MOTION_CONFIRM_TIME_MS ≤ sub32 (m'.clock % UINT32_SIZE) l.stableMotionStart ∧
            l'.stableMotionStart = l.stableMotionStart ∧ l'.motionConfirmed = true) ∨
         (l.stableMotionStart ≠ 0 ∧
            ¬ MOTION_CONFIRM_TIME_MS ≤ sub32 (m'.clock % UINT32_SIZE) l.stableMotionStart ∧
            l'.stableMotionStart = l.stableMotionStart ∧
            l'.motionConfirmed = l.motionConfirmed)))) :
    MonitorInv m0 (delay ACTIVE_MONITOR_INTERVAL_MS m') l' := by
  rw [Nat.mod_eq_of_lt hw] at hs hk
  have hstart := h.start_le
  have hsub : sub32 m'.clock l.stableMotionStart = m'.clock - l.stableMotionStart :=
    sub32_of_le _ _ (le_trans hstart hc) hw
  rw [hsub] at hk
  unfold MOTION_CONFIRM_TIME_MS at hk
  have hd : 0 < d := by linarith [hv.1]
  refine ⟨hr.trans h.rtc, ?_, ?_, ?_, ?_, ?_, ?_, ?_, ?_, ?_⟩
  · -- valid
    intro s hmem
    rw [hs, List.mem_cons] at hmem
    rcases hmem with hmem | hmem
    · rw [hmem]; exact hv
    · exact h.valid s hmem
  · -- last_of_cons
    intro p pre hp
    rw [hs] at hp
    simp only [List.cons.injEq] at hp
    rw [hl, ← hp.1]
    exact ⟨rfl, hd⟩
  · -- last_of_nil
    intro hn
    rw [hs] at hn
    simp at hn
  · -- start_le
    show l'.stableMotionStart ≤ m'.clock + ACTIVE_MONITOR_INTERVAL_MS
    rcases hk with ⟨-, h1, -⟩ | ⟨-, ⟨-, h1, -⟩ | ⟨-, -, h1, -⟩ | ⟨-, -, h1, -⟩⟩ <;>
      rw [h1] <;> omega
  · -- clock_pos
    intro _
    show 0 < m'.clock + ACTIVE_MONITOR_INTERVAL_MS
    unfold ACTIVE_MONITOR_INTERVAL_MS
    omega
  · -- timer_sound
    intro hne
    rcases hk with ⟨-, h1, -⟩ | ⟨hcand, ⟨h0, h1, -⟩ | ⟨h0, -, h1, -⟩ | ⟨h0, -, h1, -⟩⟩
    · exact absurd h1 hne
    · have hne' : l.samples ≠ [] := fun hn =>
        absurd (h.last_of_nil hn) (not_le.mpr hcand.2.1)
      obtain ⟨p, pre, hp⟩ := List.exists_cons_of_ne_nil hne'
      refine ⟨[], ⟨d, m'.clock⟩, p, pre, by rw [hs, hp]; rfl, ?_, h1.symm⟩
      exact (stableRun_single m0 m l h d m'.clock p pre hp).mpr hcand
    · obtain ⟨mid, first, p, pre, hsamp, hrun, hst⟩ := h.timer_sound h0
      refine ⟨⟨d, m'.clock⟩ :: mid, first, p, pre, by rw [hs, hsamp]; rfl, ?_, by rw [hst, h1]⟩
      exact (stableRun_extend m0 m l h d m'.clock mid first p pre hsamp).mpr ⟨hcand, hrun⟩
    · obtain ⟨mid, first, p, pre, hsamp, hrun, hst⟩ := h.timer_sound h0
      refine ⟨⟨d, m'.clock⟩ :: mid, first, p, pre, by rw [hs, hsamp]; rfl, ?_, by rw [hst, h1]⟩
      exact (stableRun_extend m0 m l h d m'.clock mid first p pre hsamp).mpr ⟨hcand, hrun⟩
  · -- confirmed_sound
    intro hconf
    rw [hs]
    rcases hk with ⟨-, -, h2⟩ | ⟨hcand, ⟨-, -, h2⟩ | ⟨h0, hspan, -, -⟩ | ⟨-, -, -, h2⟩⟩
    · exact confirmingRun_cons _ _ _ (h.confirmed_sound (h2 ▸ hconf))
    · exact confirmingRun_cons _ _ _ (h.confirmed_sound (h2 ▸ hconf))
    · obtain ⟨mid, first, p, pre, hsamp, hrun, hst⟩ := h.timer_sound h0
      refine ⟨[], ⟨d, m'.clock⟩, mid, first, p, pre, by rw [hsamp]; rfl, ?_, ?_⟩
      · exact (stableRun_extend m0 m l h d m'.clock mid first p pre hsamp).mpr ⟨hcand, hrun⟩
      · show first.stamp + MOTION_CONFIRM_TIME_MS ≤ m'.clock
        unfold MOTION_CONFIRM_TIME_MS
        omega
    · exact confirmingRun_cons _ _ _ (h.confirmed_sound (h2 ▸ hconf))
  · -- timer_complete
    intro mid first p pre hsamp hrun
    rw [hs] at hsamp
    cases mid with
    | nil =>
      simp only [List.nil_append, List.cons.injEq] at hsamp
      obtain ⟨hf, hp⟩ := hsamp
      subst hf
      have hcand := (stableRun_single m0 m l h d m'.clock p pre hp).mp hrun
      have hpos : 0 < m.clock := h.clock_pos (by rw [hp]; simp)
      rcases hk with ⟨hno, -, -⟩ | ⟨-, ⟨-, h1, -⟩ | ⟨h0, -, h1, -⟩ | ⟨h0, -, h1, -⟩⟩
      · rcases hno with hno | hno
        · rw [hcand.1] at hno; simp at hno
        · exact absurd hcand.2 hno
      · rw [h1]; exact ⟨by omega, le_refl _⟩
      · rw [h1]; exact ⟨h0, le_trans hstart hc⟩
      · rw [h1]; exact ⟨h0, le_trans hstart hc⟩
    | cons a mid' =>
      simp only [List.cons_append, List.cons.injEq] at hsamp
      obtain ⟨ha, hsamp⟩ := hsamp
      subst ha
      obtain ⟨hcand, hrun'⟩ :=
        (stableRun_extend m0 m l h d m'.clock mid' first p pre hsamp).mp hrun
      obtain ⟨hne, hle⟩ := h.timer_complete mid' first p pre hsamp hrun'
      rcases hk with ⟨hno, -, -⟩ | ⟨-, ⟨h0, -, -⟩ | ⟨-, -, h1, -⟩ | ⟨-, -, h1, -⟩⟩
      · rcases hno with hno | hno
        · rw [hcand.1] at hno; simp at hno
        · exact absurd hcand.2 hno
      · exact absurd h0 hne
      · rw [h1]; exact ⟨hne, hle⟩
      · rw [h1]; exact ⟨hne, hle⟩
  · -- confirmed_complete
    rintro ⟨post, last, mid, first, p, pre, hsamp, hrun, hspan⟩
    rw [hs] at hsamp
    cases post with
    | nil =>
      simp only [List.nil_append, List.cons.injEq] at hsamp
      obtain ⟨hlast, hsamp⟩ := hsamp
      subst hlast
      obtain ⟨hcand, hrun'⟩ :=
        (stableRun_extend m0 m l h d m'.clock mid first p pre hsamp).mp hrun
      obtain ⟨hne, hle⟩ := h.timer_complete mid first p pre hsamp hrun'
      have hspan' : first.stamp + 2000 ≤ m'.clock := hspan
      rcases hk with ⟨hno, -, -⟩ | ⟨-, ⟨h0, -, -⟩ | ⟨-, -, -, h2⟩ | ⟨-, hnot, -, -⟩⟩
      · rcases hno with hno | hno
        · rw [hcand.1] at hno; simp at hno
        · exact absurd hcand.2 hno
      · exact absurd h0 hne
      · exact h2
      · exact absurd (by omega) hnot
    | cons a post' =>
      simp only [List.cons_append, List.cons.injEq] at hsamp
      have hold := h.confirmed_complete ⟨post', last, mid, first, p, pre, hsamp.2, hrun, hspan⟩
      rcases hk with ⟨-, -, h2⟩ | ⟨-, ⟨-, -, h2⟩ | ⟨-, -, -, h2⟩ | ⟨-, -, -, h2⟩⟩
      · rw [h2]; exact hold
      · rw [h2]; exact hold
      · exact h2
      · rw [h2]; exact hold

theorem monitorInv_body (e : Env) (m0 m : Machine) (l : Monitor) (h : MonitorInv m0 m l)
    (hw : (monitorBody e m l).1.clock < UINT32_SIZE) :
    MonitorInv m0 (monitorBody e m l).1 (monitorBody e m l).2 := by
  unfold monitorBody at hw ⊢
  simp only at hw ⊢
  by_cases hd : (readUltrasonicDistance e m).1 > 0
  · simp only [hd, if_true] at hw ⊢
    have h1 : MonitorInv m0 (readUltrasonicDistance e m).2 l :=
      monitorInv_later m0 m _ l h rfl (le_refl _)
    obtain ⟨c1, c2, c3, c4, c5⟩ := monitorSample_cases e (readUltrasonicDistance e m).2 l
      (readUltrasonicDistance e m).1
    have hv : 2 ≤ (readUltrasonicDistance e m).1 ∧ (readUltrasonicDistance e m).1 ≤ 400 := by
      rcases echoReading_cases (e.pulse m.nPulse) with h2 | h2
      · have : (readUltrasonicDistance e m).1 = -1 := h2
        rw [this] at hd; norm_num at hd
      · exact h2
    have hw' : (monitorSample e (readUltrasonicDistance e m).2 l
        (readUltrasonicDistance e m).1).1.clock < UINT32_SIZE := by
      simp only [delay] at hw; omega
    exact monitorInv_step m0 _ _ l _ _ h1 hv c1 c2 hw' c3 c4 c5
  · simp only [hd, if_false] at hw ⊢
    exact monitorInv_later m0 m _ l h rfl (by simp [delay, readUltrasonicDistance])

theorem monitorInv_loop (e : Env) (m0 : Machine) :
    ∀ (fuel : Nat) (m : Machine) (l : Monitor) (m' : Machine) (l' : Monitor),
      monitorLoop e fuel m l = some (m', l') → m'.clock < UINT32_SIZE →
      MonitorInv m0 m l → MonitorInv m0 m' l' := by
  intro fuel
  induction fuel with
  | zero => intro m l m' l' h; simp [monitorLoop] at h
  | succ n ih =>
    intro m l m' l' h hw hinv
    unfold monitorLoop at h
    simp only at h
    have h1 : MonitorInv m0 (millis e m).2 l :=
      monitorInv_later m0 m _ l hinv rfl (by simp [millis])
    split_ifs at h with hc
    · have h2 := (monitorLoop_unchanged e n _ _ _ _ h).2.2
      exact ih _ _ _ _ h hw (monitorInv_body e m0 _ l h1 (lt_of_le_of_lt h2 hw))
    · simp only [Option.some.injEq, Prod.mk.injEq] at h
      rw [← h.1, ← h.2]
      exact h1

theorem monitorInv_window (e : Env) (fuel : Nat) (m m1 : Machine) (l : Monitor)
    (h : monitorWindow e fuel m = some (m1, l)) (hw : m1.clock < UINT32_SIZE) :
    MonitorInv m m1 l := by
  unfold monitorWindow at h
  exact monitorInv_loop e m fuel _ _ _ _ h hw
    (monitorInv_later m m (millis e m).2 _ (monitorInv_init m _) rfl (by simp [millis]))

/-! ## Confirmation of motion -/

/-- A difference that the program finds within the stability tolerance is less than 5:
rounding to binary32 never carries a difference across 5. -/
theorem stable_test_sound (x : ℚ) (h : |f32 x| < 5) : |x| < 5 := by
  by_contra hc
  have := five_le_abs_f32 x (not_lt.mp hc)
  linarith

/-- The tests of the program imply the exact comparisons. -/
theorem stableRun_exact (m : Machine) (p : Sample) :
    ∀ run : List Sample, stableRun m run p = true → exactRun m run p = true := by
  intro run
  induction run with
  | nil => intro _; rfl
  | cons s rest ih =>
    intro h
    simp only [stableRun, Bool.and_eq_true, decide_eq_true_eq] at h
    obtain ⟨⟨h1, h2⟩, h3⟩ := h
    simp only [exactRun, Bool.and_eq_true, decide_eq_true_eq]
    exact ⟨⟨detectMotion_sound m s.distance h1, stable_test_sound _ h2⟩, ih h3⟩

/-- Differences that keep clear of the thresholds by one binary32 step pass the tests of
the program. -/
theorem marginRun_stable (m : Machine) (p : Sample) :
    ∀ run : List Sample, marginRun m run p = true → stableRun m run p = true := by
  intro run
  induction run with
  | nil => intro _; rfl
  | cons s rest ih =>
    intro h
    simp only [marginRun, Bool.and_eq_true, decide_eq_true_eq] at h
    obtain ⟨⟨⟨h1, h2, h3⟩, h4⟩, h5⟩ := h
    simp only [stableRun, Bool.and_eq_true, decide_eq_true_eq]
    exact ⟨⟨detectMotion_of_margin m s.distance h1 h2 h3, abs_f32_lt_five _ h4⟩, ih h5⟩

/-- C9. In a monitoring window without 32-bit wrap of the clock, every recorded sample is
a valid reading, and if `motionConfirmed` is true at window end the history contains a
run of consecutive valid samples `first`, ..., `last`, each a candidate motion against the
baseline and each within the 5 cm stability tolerance of the valid sample before it (as
the program finds them on binary32 differences, `stableRun`, and also with the
differences taken exactly, `exactRun`), with `last` taken `MOTION_CONFIRM_TIME_MS` or
more after `first`. Whatever the state, a valid sample that is not a candidate motion, or
that has no valid sample before it within the tolerance (for the program's test or for
the exact differences), sets `stableMotionStart` to zero. -/
theorem motion_confirmed_has_run (e : Env) (fuel : Nat) (m m1 : Machine) (l : Monitor)
    (hwin : monitorWindow e fuel m = some (m1, l)) (hw : m1.clock < UINT32_SIZE) :
    (∀ s ∈ l.samples, 2 ≤ s.distance ∧ s.distance ≤ 400) ∧
    (l.motionConfirmed = true →
      ∃ post last mid first p pre,
        l.samples = post ++ last :: (mid ++ first :: p :: pre) ∧
        stableRun m (last :: (mid ++ [first])) p = true ∧
        exactRun m (last :: (mid ++ [first])) p = true ∧
        first.stamp + MOTION_CONFIRM_TIME_MS ≤ last.stamp) ∧
    ∀ (mk : Machine) (lk : Monitor) (d : ℚ),
      (detectMotion mk d = false ∨
        ¬ (0 ≤ mk.rtc.g_baseline_distance ∧ 0 ≤ d ∧
            MOTION_THRESHOLD_CM < |d - mk.rtc.g_baseline_distance|) ∨
        ¬ (0 < lk.lastDistance ∧ |f32 (d - lk.lastDistance)| < 5) ∨
        ¬ (0 < lk.lastDistance ∧ |d - lk.lastDistance| < 5)) →
      (monitorSample e mk lk d).2.stableMotionStart = 0 := by
  have hinv := monitorInv_window e fuel m m1 l hwin hw
  refine ⟨hinv.valid, fun hc => ?_, ?_⟩
  · obtain ⟨post, last, mid, first, p, pre, h1, h2, h3⟩ := hinv.confirmed_sound hc
    exact ⟨post, last, mid, first, p, pre, h1, h2, stableRun_exact m p _ h2, h3⟩
  · intro mk lk d h
    have h' : detectMotion mk d = false
        ∨ ¬ (0 < lk.lastDistance ∧ |f32 (d - lk.lastDistance)| < 5) := by
      rcases h with h | h | h | h
      · exact Or.inl h
      · left
        cases hd : detectMotion mk d with
        | false => rfl
        | true => exact absurd (detectMotion_sound mk d hd) h
      · exact Or.inr h
      · right
        intro hc
        exact h ⟨hc.1, stable_test_sound _ hc.2⟩
    rw [monitorSample_reset e mk lk d h']

theorem motion_confirmed_has_run_witness :
    ∃ m1 l, monitorWindow (Env.readings 3) 16 (setup (Env.readings 3) Rtc.monitoring)
        = some (m1, l) ∧
      m1.clock < UINT32_SIZE ∧ l.motionConfirmed = true ∧
      ∃ post last mid first p pre,
        l.samples = post ++ last :: (mid ++ first :: p :: pre) ∧
        stableRun (setup (Env.readings 3) Rtc.monitoring) (last :: (mid ++ [first])) p = true ∧
        exactRun (setup (Env.readings 3) Rtc.monitoring) (last :: (mid ++ [first])) p = true ∧
        first.stamp + MOTION_CONFIRM_TIME_MS ≤ last.stamp := by
  have hb : BoundedDrift (Env.readings 3) := fun _ => by simp [Env.readings]
  obtain ⟨⟨m1, l⟩, h⟩ := monitorLoop_terminates (Env.readings 3) hb
    (setup (Env.readings 3) Rtc.monitoring)
  have hval : (monitorWindow (Env.readings 3) 16 (setup (Env.readings 3) Rtc.monitoring)).map
      (fun r => (r.2.motionConfirmed, decide (r.1.clock < UINT32_SIZE)))
      = some (true, true) := by decide!
  rw [h] at hval
  simp only [Option.map_some', Option.some.injEq, Prod.mk.injEq, decide_eq_true_eq] at hval
  exact ⟨m1, l, h, hval.2, hval.1,
    (motion_confirmed_has_run (Env.readings 3) 16 _ m1 l h hval.2).2.1 hval.1⟩

/-- C10, as amended. In a monitoring window without 32-bit wrap of the clock, when
consecutive valid readings `first`, ..., `last` are each found a candidate motion and each
found within the stability tolerance of the valid reading before it (`p` before `first`)
by the program's tests on binary32 differences, or keep clear of the two thresholds by
one binary32 step (`marginRun`), and `last` is taken `MOTION_CONFIRM_TIME_MS` or more
after `first`, motion is confirmed. -/
theorem confirming_run_confirms (e : Env) (fuel : Nat) (m m1 : Machine) (l : Monitor)
    (hwin : monitorWindow e fuel m = some (m1, l)) (hw : m1.clock < UINT32_SIZE)
    (hrun : ∃ post last mid first p pre,
      l.samples = post ++ last :: (mid ++ first :: p :: pre) ∧
      (stableRun m (last :: (mid ++ [first])) p = true ∨
        marginRun m (last :: (mid ++ [first])) p = true) ∧
      first.stamp + MOTION_CONFIRM_TIME_MS ≤ last.stamp) :
    l.motionConfirmed = true := by
  obtain ⟨post, last, mid, first, p, pre, h1, h2, h3⟩ := hrun
  have h2' : stableRun m (last :: (mid ++ [first])) p = true := by
    rcases h2 with h2 | h2
    · exact h2
    · exact marginRun_stable m p _ h2
  exact (monitorInv_window e fuel m m1 l hwin hw).confirmed_complete
    ⟨post, last, mid, first, p, pre, h1, h2', h3⟩

theorem confirming_run_confirms_witness :
    ∃ m1 l, monitorWindow (Env.readings 3) 16 (setup (Env.readings 3) Rtc.monitoring)
        = some (m1, l) ∧
      m1.clock < UINT32_SIZE ∧
      l.samples = [⟨echoReading 2031, 104500⟩, ⟨echoReading 2043, 102500⟩,
        ⟨echoReading 2025, 100500⟩] ∧
      marginRun (setup (Env.readings 3) Rtc.monitoring)
        [⟨echoReading 2031, 104500⟩, ⟨echoReading 2043, 102500⟩]
        ⟨echoReading 2025, 100500⟩ = true ∧
      l.motionConfirmed = true := by
  have hb : BoundedDrift (Env.readings 3) := fun _ => by simp [Env.readings]
  obtain ⟨⟨m1, l⟩, h⟩ := monitorLoop_terminates (Env.readings 3) hb
    (setup (Env.readings 3) Rtc.monitoring)
  have hval : (monitorWindow (Env.readings 3) 16 (setup (Env.readings 3) Rtc.monitoring)).map
      (fun r => (r.2.samples, decide (r.1.clock < UINT32_SIZE)))
      = some ([⟨echoReading 2031, 104500⟩, ⟨echoReading 2043, 102500⟩,
        ⟨echoReading 2025, 100500⟩], true) := by
    decide!
  rw [h] at hval
  simp only [Option.map_some', Option.some.injEq, Prod.mk.injEq, decide_eq_true_eq] at hval
  have hrun : marginRun (setup (Env.readings 3) Rtc.monitoring)
      [⟨echoReading 2031, 104500⟩, ⟨echoReading 2043, 102500⟩]
      ⟨echoReading 2025, 100500⟩ = true := by
    decide!
  exact ⟨m1, l, h, hval.2, hval.1, hrun,
    confirming_run_confirms (Env.readings 3) 16 _ m1 l h hval.2
      ⟨[], _, [], _, _, [], hval.1, Or.inr hrun, by decide⟩⟩

/-- C10 as stated fails: two consecutive valid readings (34.79 cm and 35.10 cm against a
baseline of 50 cm), both candidate motions and within the tolerance of one another (for
the program's binary32 tests and for the exact differences alike), are taken 2000 ms
apart, a span that reaches `MOTION_CONFIRM_TIME_MS`; motion is not confirmed by the second
reading, nor by the end of the window. -/
theorem two_stable_readings_do_not_confirm :
    (monitorWindow (Env.readings 2) 16 (setup (Env.readings 2) Rtc.monitoring)).map
        (fun r => (r.2.samples, r.2.motionConfirmed))
      = some ([⟨echoReading 2043, 102500⟩, ⟨echoReading 2025, 100500⟩], false) ∧
    detectMotion (setup (Env.readings 2) Rtc.monitoring) (echoReading 2025) = true ∧
    detectMotion (setup (Env.readings 2) Rtc.monitoring) (echoReading 2043) = true ∧
    |f32 (echoReading 2043 - echoReading 2025)| < 5 ∧
    |echoReading 2043 - echoReading 2025| < 5 ∧
    MOTION_THRESHOLD_CM < |echoReading 2025 - 50| ∧
    MOTION_THRESHOLD_CM < |echoReading 2043 - 50| ∧
    100500 + MOTION_CONFIRM_TIME_MS ≤ 102500 := by
  decide!

/-! ## What survives the sleep -/

theorem setup_timer (e : Env) (rtc : Rtc) (hw : e.wake = WakeCause.timer) :
    setup e rtc = { delay 500 (Machine.wake e rtc) with
      rtc := { rtc with g_boot_count := incr32 rtc.g_boot_count } } := by
  simp [setup, hw, delay, Machine.wake]

theorem stateUploadEvent_trace (e : Env) (fuel : Nat) (m m' : Machine)
    (h : stateUploadEvent e fuel m = some m') :
    m'.rtc.g_state = m.rtc.g_state ∧ m'.asleep = some DEEP_SLEEP_NORMAL_MS ∧
    ∃ r, m'.trace = m.trace ++ Event.wifiConnect :: r := by
  cases hw : e.wifi m.nWifi with
  | false =>
    rw [stateUploadEvent_wifi_down e fuel m hw, Option.some.injEq] at h
    subst h
    exact ⟨rfl, rfl, [Event.deepSleep DEEP_SLEEP_NORMAL_MS], by
      simp [enterDeepSleep, connectWiFi, millis]⟩
  | true =>
    cases hf : e.firebase m.nFirebase with
    | false =>
      rw [stateUploadEvent_firebase_down e fuel m hw hf, Option.some.injEq] at h
      subst h
      exact ⟨rfl, rfl, _, by
        simp [enterDeepSleep, connectWiFi, millis, disconnectWiFi, initFirebase]; rfl⟩
    | true =>
      have h1 : (connectWiFi e (millis e m).2).1 = true := hw
      have h2 : (initFirebase e (connectWiFi e (millis e m).2).2).1 = true := hf
      unfold stateUploadEvent at h
      simp only [h1, h2, Bool.true_eq_false, if_false] at h
      split at h
      · simp at h
      · rename_i m2 hwait
        simp only [Option.some.injEq] at h
        subst h
        obtain ⟨h3, h4, -, -⟩ := uploadWait_unchanged e _ fuel _ _ hwait
        obtain ⟨h5, h6, h7⟩ := uploadFinish_result e m2
        refine ⟨by rw [h5, h3]; rfl, h6, ?_⟩
        rw [h7, h4]
        exact ⟨_, by
          simp [databaseSet, millis, readUltrasonicDistance, initFirebase, connectWiFi]; rfl⟩

theorem activation_upload_event (e : Env) (fuel : Nat) (rtc : Rtc)
    (hw : e.wake = WakeCause.timer) (hs : rtc.g_state = STATE_UPLOAD_EVENT) :
    activation e fuel 1 rtc = (stateUploadEvent e fuel (setup e rtc)).map endOfLoop := by
  have h1 : (setup e rtc).rtc.g_state = STATE_UPLOAD_EVENT := by
    rw [setup_timer e rtc hw]; exact hs
  have h2 : (setup e rtc).asleep = none := by rw [setup_timer e rtc hw]; rfl
  unfold activation loops
  simp only [h2, Option.isSome_none, Bool.false_eq_true, if_false, loop, h1]
  cases stateUploadEvent e fuel (setup e rtc) <;> rfl

/-- C1 (where the code departs from the claim). When the device wakes on the timer with
`STATE_UPLOAD_EVENT` in RTC memory, the activation runs `stateUploadEvent`, which calls
`connectWiFi` first thing, although less than `MIN_UPLOAD_INTERVAL_MS` has elapsed since
`g_last_upload_time`: the handler has no rate check of its own. -/
theorem upload_event_ignores_rate_limit (e : Env) (rtc : Rtc)
    (hw : e.wake = WakeCause.timer) (hs : rtc.g_state = STATE_UPLOAD_EVENT)
    (hb : BoundedDrift e)
    (_hlimit : sub32 (millis e (setup e rtc)).1 rtc.g_last_upload_time
      < MIN_UPLOAD_INTERVAL_MS) :
    ∃ m' r, activation e 61 1 rtc = some m' ∧ m'.trace = Event.wifiConnect :: r := by
  obtain ⟨m1, h1⟩ := stateUploadEvent_returns e hb (setup e rtc)
  obtain ⟨-, -, r, hr⟩ := stateUploadEvent_trace e 61 _ m1 h1
  refine ⟨endOfLoop m1, r, ?_, ?_⟩
  · rw [activation_upload_event e 61 rtc hw hs, h1]; rfl
  · rw [endOfLoop_trace, hr, setup_timer e rtc hw]; rfl

/-- An upload leaves `STATE_UPLOAD_EVENT` in RTC memory. A device in its duty cycle wakes
at clock 100000 with an object at 35 cm in front of a 50 cm baseline: QuickCheck,
ActiveMonitor and UploadEvent run in turn, and the activation ends at clock 135500 with a
sleep request of 10 s and the RTC contents `Rtc.afterUpload`. -/
theorem upload_leaves_upload_state :
    (activation (Env.online WakeCause.timer 100000) 61 3 Rtc.watching).map
      (fun m => (persisted m, m.asleep, m.clock))
      = some (Rtc.afterUpload, some DEEP_SLEEP_NORMAL_MS, 135500) := by
  decide!

theorem upload_event_ignores_rate_limit_witness :
    (Env.online WakeCause.timer 145500).wake = WakeCause.timer ∧
    Rtc.afterUpload.g_state = STATE_UPLOAD_EVENT ∧
    sub32 (millis (Env.online WakeCause.timer 145500)
        (setup (Env.online WakeCause.timer 145500) Rtc.afterUpload)).1
      Rtc.afterUpload.g_last_upload_time = 10500 ∧
    ∃ m' r, activation (Env.online WakeCause.timer 145500) 61 1 Rtc.afterUpload = some m' ∧
      m'.trace = Event.wifiConnect :: r :=
  ⟨rfl, rfl, by decide, upload_event_ignores_rate_limit (Env.online WakeCause.timer 145500)
    Rtc.afterUpload rfl rfl (fun _ => by simp [Env.online]) (by decide)⟩

theorem endOfLoop_rtc (m : Machine) :
    (endOfLoop m).rtc = m.rtc ∧ (endOfLoop m).asleep = m.asleep := by
  unfold endOfLoop; split_ifs <;> exact ⟨rfl, rfl⟩

theorem stateQuickCheck_sleep_state (e : Env) (m : Machine) :
    (stateQuickCheck e m).asleep = m.asleep ∨
      (stateQuickCheck e m).rtc.g_state = m.rtc.g_state := by
  unfold stateQuickCheck refreshBaseline
  simp only [millis, readUltrasonicDistance, updateBaseline, enterDeepSleep]
  split_ifs <;> simp

theorem stateActiveMonitor_sleep_state (e : Env) (fuel : Nat) (m m' : Machine)
    (h : stateActiveMonitor e fuel m = some m') :
    m'.asleep = m.asleep ∨ m'.rtc.g_state = m.rtc.g_state := by
  unfold stateActiveMonitor at h
  split at h
  · simp at h
  · rename_i m1 l hwin
    simp only [Option.some.injEq] at h
    subst h
    obtain ⟨h1, h2, -⟩ := monitorWindow_unchanged e fuel m m1 l hwin
    rw [← h1, ← h2]
    cases l.motionConfirmed with
    | false => rw [monitorDecision_not_confirmed]; exact Or.inr rfl
    | true =>
      by_cases hr : MIN_UPLOAD_INTERVAL_MS ≤ sub32 (millis e m1).1 m1.rtc.g_last_upload_time
      · rw [monitorDecision_upload e m1 hr]; exact Or.inl rfl
      · rw [monitorDecision_rate_limited e m1 hr]; exact Or.inr rfl

/-- C2 (where the code departs from the claim). Whenever a call of `loop()` ends in a
sleep request, the state found in RTC memory, and dispatched on by `loop()`, after the
following timer-caused wake is the state of the handler that requested the sleep:
ActiveMonitor after `stateActiveMonitor`, UploadEvent after `stateUploadEvent`, and
QuickCheck only after `stateQuickCheck`. No handler writes `g_state` before it calls
`enterDeepSleep`, and `setup()` leaves it alone on a timer wake. -/
theorem sleep_keeps_handler_state (e e' : Env) (fuel : Nat) (m m' : Machine)
    (ha : m.asleep = none) (h : loop e fuel m = some m') (hs : m'.asleep ≠ none)
    (hw : e'.wake = WakeCause.timer) :
    (setup e' (persisted m')).rtc.g_state = m.rtc.g_state ∧
    m.rtc.g_state ≠ STATE_DEEP_SLEEP := by
  have hsetup : (setup e' (persisted m')).rtc.g_state = m'.rtc.g_state := by
    rw [setup_timer e' _ hw]; rfl
  rw [hsetup]
  cases hst : m.rtc.g_state with
  | STATE_DEEP_SLEEP =>
    rw [loop_deep_sleep e fuel m hst, Option.some.injEq] at h
    subst h
    exact absurd (((endOfLoop_rtc (resetState m)).2).trans ha) hs
  | STATE_QUICK_CHECK =>
    rw [loop_quick_check e fuel m hst, Option.some.injEq] at h
    subst h
    obtain ⟨h1, h2⟩ := endOfLoop_rtc (stateQuickCheck e m)
    rw [h2] at hs
    rw [h1]
    rcases stateQuickCheck_sleep_state e m with h3 | h3
    · exact absurd (h3.trans ha) hs
    · exact ⟨h3.trans hst, by decide⟩
  | STATE_ACTIVE_MONITOR =>
    simp only [loop, hst] at h
    cases hr : stateActiveMonitor e fuel m with
    | none => rw [hr] at h; simp at h
    | some m1 =>
      rw [hr] at h
      simp only [Option.map_some', Option.some.injEq] at h
      subst h
      obtain ⟨h1, h2⟩ := endOfLoop_rtc m1
      rw [h2] at hs
      rw [h1]
      rcases stateActiveMonitor_sleep_state e fuel m m1 hr with h3 | h3
      · exact absurd (h3.trans ha) hs
      · exact ⟨h3.trans hst, by decide⟩
  | STATE_UPLOAD_EVENT =>
    simp only [loop, hst] at h
    cases hr : stateUploadEvent e fuel m with
    | none => rw [hr] at h; simp at h
    | some m1 =>
      rw [hr] at h
      simp only [Option.map_some', Option.some.injEq] at h
      subst h
      rw [(endOfLoop_rtc m1).1]
      exact ⟨(stateUploadEvent_trace e fuel m m1 hr).1.trans hst, by decide⟩

theorem sleep_keeps_handler_state_witness :
    ∃ m', (setup (Env.readings 2) Rtc.monitoring).asleep = none ∧
      loop (Env.readings 2) 16 (setup (Env.readings 2) Rtc.monitoring) = some m' ∧
      m'.asleep = some DEEP_SLEEP_NORMAL_MS ∧
      (Env.readings 0).wake = WakeCause.timer ∧
      (setup (Env.readings 0) (persisted m')).rtc.g_state = STATE_ACTIVE_MONITOR := by
  have hval : (loop (Env.readings 2) 16 (setup (Env.readings 2) Rtc.monitoring)).map
      (fun m => m.asleep) = some (some DEEP_SLEEP_NORMAL_MS) := by decide!
  cases hl : loop (Env.readings 2) 16 (setup (Env.readings 2) Rtc.monitoring) with
  | none => rw [hl] at hval; simp at hval
  | some m' =>
    rw [hl] at hval
    simp only [Option.map_some', Option.some.injEq] at hval
    exact ⟨m', rfl, rfl, hval, rfl,
      (sleep_keeps_handler_state (Env.readings 2) (Env.readings 0) 16 _ m' rfl hl
        (by rw [hval]; simp) rfl).1⟩

/-! ## The sensor reader and the candidate test -/

/-- C14. For every echo duration in microseconds, the reading is the marker `-1` exactly
when the duration is 0 or `duration / 58.2` is below 2 cm or above 400 cm; otherwise it is
`duration / 58.2`; so every reading other than the marker lies in `[2, 400]`. The reading
that the program computes in floating point (`echoReading`) is the marker for a duration
of 0 and, when it is not the marker, lies in `[2, 400]` as well. -/
theorem echo_reading_marker_or_in_range (duration : Nat) :
    (echoToDistance duration = -1 ↔
      duration = 0 ∨ (duration : ℚ) / 58.2 < 2 ∨ (duration : ℚ) / 58.2 > 400) ∧
    (¬ (duration = 0 ∨ (duration : ℚ) / 58.2 < 2 ∨ (duration : ℚ) / 58.2 > 400) →
      echoToDistance duration = (duration : ℚ) / 58.2) ∧
    (echoToDistance duration ≠ -1 →
      2 ≤ echoToDistance duration ∧ echoToDistance duration ≤ 400) ∧
    (duration = 0 → echoReading duration = -1) ∧
    (echoReading duration ≠ -1 →
      2 ≤ echoReading duration ∧ echoReading duration ≤ 400) := by
  have hnn : (0 : ℚ) ≤ (duration : ℚ) / 58.2 := by positivity
  refine ⟨⟨fun h => ?_, fun h => ?_⟩, fun h => ?_, fun h => ?_,
    fun h => by simp [echoReading, h],
    fun h => (echoReading_cases duration).resolve_left h⟩
  · by_contra hc
    simp only [not_or] at hc
    have : echoToDistance duration = (duration : ℚ) / 58.2 := by
      simp [echoToDistance, hc.1, hc.2.1, hc.2.2]
    rw [this] at h
    linarith
  · rcases h with h | h
    · simp [echoToDistance, h]
    · by_cases h0 : duration = 0
      · simp [echoToDistance, h0]
      · simp [echoToDistance, h0, h]
  · simp only [not_or] at h
    simp [echoToDistance, h.1, h.2.1, h.2.2]
  · rcases echoToDistance_cases duration with h1 | h1
    · exact absurd h1 h
    · exact h1

theorem echo_reading_marker_or_in_range_witness :
    echoToDistance 2037 = 35 ∧ echoToDistance 0 = -1 ∧ echoToDistance 100 = -1 ∧
    echoToDistance 30000 = -1 ∧
    (2 ≤ echoToDistance 2037 ∧ echoToDistance 2037 ≤ 400) ∧
    echoReading 2037 = 35 ∧ echoReading 0 = -1 ∧ echoReading 100 = -1 ∧
    echoReading 30000 = -1 ∧
    (2 ≤ echoReading 2025 ∧ echoReading 2025 ≤ 400) :=
  ⟨by decide!, by decide!, by decide!, by decide!,
    (echo_reading_marker_or_in_range 2037).2.2.1 (by decide!),
    by decide!, by decide!, by decide!, by decide!,
    (echo_reading_marker_or_in_range 2025).2.2.2.2 (by decide!)⟩

/-- C12, as amended. `detectMotion` answers true if and only if the baseline is
initialized (`b >= 0`), the reading is valid (`d >= 0`) and the difference `d - b`, rounded
to binary32 as the program computes it, is beyond `MOTION_THRESHOLD_CM` in absolute value.
A true answer implies `|d - b| > MOTION_THRESHOLD_CM` for the exact difference; with an
initialized baseline and a valid reading, an exact difference of `10 + 2^-20` cm or more
gives true; an exact difference of 10 cm or less (exactly 10 cm included, the comparison
is strict) gives false; with an unset baseline or an invalid reading the answer is false.
It is a function of the RTC variables and the reading only, and returns nothing but the
answer. -/
theorem detect_motion_iff (m : Machine) (d : ℚ) :
    (detectMotion m d = true ↔
      0 ≤ m.rtc.g_baseline_distance ∧ 0 ≤ d ∧
        MOTION_THRESHOLD_CM < |f32 (d - m.rtc.g_baseline_distance)|) ∧
    (detectMotion m d = true →
      0 ≤ m.rtc.g_baseline_distance ∧ 0 ≤ d ∧
        MOTION_THRESHOLD_CM < |d - m.rtc.g_baseline_distance|) ∧
    (0 ≤ m.rtc.g_baseline_distance → 0 ≤ d →
      MOTION_THRESHOLD_CM + 1 / 2 ^ 20 ≤ |d - m.rtc.g_baseline_distance| →
      detectMotion m d = true) ∧
    (|d - m.rtc.g_baseline_distance| ≤ 10 → detectMotion m d = false) ∧
    (m.rtc.g_baseline_distance < 0 ∨ d < 0 → detectMotion m d = false) ∧
    ∀ m' : Machine, m'.rtc = m.rtc → detectMotion m' d = detectMotion m d := by
  refine ⟨detectMotion_eq_true_iff m d, detectMotion_sound m d,
    detectMotion_of_margin m d, ?_, ?_, fun m' h => detectMotion_congr m m' d h⟩
  · intro h
    cases hd : detectMotion m d with
    | false => rfl
    | true =>
      have h1 := (detectMotion_sound m d hd).2.2
      simp only [MOTION_THRESHOLD_CM] at h1
      linarith
  · intro h
    simp [detectMotion, h]

theorem detect_motion_iff_witness :
    detectMotion (setup (Env.readings 0) Rtc.monitoring) 35 = true ∧
    detectMotion (setup (Env.readings 0) Rtc.monitoring) (echoReading 2037) = true ∧
    detectMotion (setup (Env.readings 0) Rtc.monitoring) 40 = false ∧
    detectMotion (setup (Env.readings 0) Rtc.monitoring) 60 = false ∧
    detectMotion (setup (Env.readings 0) Rtc.monitoring) (-1) = false ∧
    detectMotion (setup (Env.readings 0) Rtc.coldBoot) 35 = false :=
  ⟨(detect_motion_iff (setup (Env.readings 0) Rtc.monitoring) 35).1.mpr (by decide!),
    (detect_motion_iff (setup (Env.readings 0) Rtc.monitoring) (echoReading 2037)).2.2.1
      (by decide!) (by decide!) (by decide!),
    (detect_motion_iff (setup (Env.readings 0) Rtc.monitoring) 40).2.2.2.1 (by decide!),
    (detect_motion_iff (setup (Env.readings 0) Rtc.monitoring) 60).2.2.2.1 (by decide!),
    (detect_motion_iff (setup (Env.readings 0) Rtc.monitoring) (-1)).2.2.2.2.1
      (Or.inr (by norm_num)),
    (detect_motion_iff (setup (Env.readings 0) Rtc.coldBoot) 35).2.2.2.2.1
      (Or.inl (by decide!))⟩

/-- C12 as stated fails: with the baseline read from a 118 microsecond echo (2.0274 cm)
and the reading of a 700 microsecond echo (12.0274 cm), both binary32 numbers, the
baseline is initialized, the reading is valid and `|d - b|` is greater than
`MOTION_THRESHOLD_CM` (by `2^-22` cm), but the binary32 difference rounds to 10 and
`detectMotion` answers false. The same holds of the binary32 numbers `5 - 2^-21` and
15. -/
theorem detect_motion_difference_rounds_to_threshold :
    (0 : ℚ) ≤ (setup (Env.readings 0) Rtc.nearObject).rtc.g_baseline_distance ∧
    (0 : ℚ) ≤ echoReading 700 ∧
    MOTION_THRESHOLD_CM
      < |echoReading 700 - (setup (Env.readings 0) Rtc.nearObject).rtc.g_baseline_distance| ∧
    f32 (echoReading 700 - (setup (Env.readings 0) Rtc.nearObject).rtc.g_baseline_distance)
      = 10 ∧
    detectMotion (setup (Env.readings 0) Rtc.nearObject) (echoReading 700) = false ∧
    f32 (5 - 1 / 2 ^ 21) = 5 - 1 / 2 ^ 21 ∧ f32 15 = 15 ∧
    MOTION_THRESHOLD_CM < |(15 : ℚ) - (5 - 1 / 2 ^ 21)| ∧
    detectMotion
      { setup (Env.readings 0) Rtc.nearObject with
        rtc := { Rtc.nearObject with g_baseline_distance := 5 - 1 / 2 ^ 21 } } 15 = false := by
  decide!

/-! ## The baseline -/

theorem refreshBaseline_due (e : Env) (m : Machine) (d : ℚ) (hd : 0 < d)
    (hr : BASELINE_UPDATE_INTERVAL_MS < sub32 (millis e m).1 m.rtc.g_last_baseline_update
      ∧ m.rtc.g_motion_active = false) :
    refreshBaseline e m d =
      { (millis e (millis e m).2).2 with
        rtc := { m.rtc with g_baseline_distance := d,
                            g_last_baseline_update := (millis e (millis e m).2).1 } } := by
  have h : (millis e m).2.rtc = m.rtc := rfl
  unfold refreshBaseline updateBaseline
  simp only [h, gt_iff_lt, hr, and_self, if_true, hd]
  rfl

theorem detectMotion_at_baseline (m : Machine) (d : ℚ) (h : m.rtc.g_baseline_distance = d) :
    detectMotion m d = false := by
  unfold detectMotion
  split_ifs
  · rfl
  · simp [h, f32_zero, MOTION_THRESHOLD_CM]

/-- C15. In a `stateQuickCheck` run with a valid reading `d`, a set baseline,
`g_motion_active` false and `now - g_last_baseline_update > BASELINE_UPDATE_INTERVAL_MS`,
the baseline is overwritten with `d` before the motion test: whatever the distance of `d`
from the previous baseline, the run does not change `g_state` (so it does not enter
ActiveMonitor), leaves `g_motion_active`, `g_last_motion_time` and
`g_motion_event_count` as they were, and ends in a sleep request. -/
theorem due_refresh_absorbs_motion (e : Env) (m : Machine)
    (hb : 0 ≤ m.rtc.g_baseline_distance)
    (hd : 0 ≤ echoReading (e.pulse m.nPulse))
    (ha : m.rtc.g_motion_active = false)
    (hdue : BASELINE_UPDATE_INTERVAL_MS
      < sub32 (millis e (millis e m).2).1 m.rtc.g_last_baseline_update) :
    (stateQuickCheck e m).rtc.g_baseline_distance = echoReading (e.pulse m.nPulse) ∧
    (stateQuickCheck e m).rtc.g_state = m.rtc.g_state ∧
    (m.rtc.g_state = STATE_QUICK_CHECK →
      (stateQuickCheck e m).rtc.g_state ≠ STATE_ACTIVE_MONITOR) ∧
    (stateQuickCheck e m).rtc.g_motion_active = false ∧
    (stateQuickCheck e m).rtc.g_last_motion_time = m.rtc.g_last_motion_time ∧
    (stateQuickCheck e m).rtc.g_motion_event_count = m.rtc.g_motion_event_count ∧
    ((stateQuickCheck e m).asleep = some DEEP_SLEEP_NORMAL_MS ∨
      (stateQuickCheck e m).asleep = some DEEP_SLEEP_EXTENDED_MS) := by
  have hpos := echoReading_pos _ hd
  have h1 := refreshBaseline_due e (readUltrasonicDistance e (millis e m).2).2
    (echoReading (e.pulse m.nPulse)) hpos ⟨hdue, ha⟩
  have h2 : detectMotion (refreshBaseline e (readUltrasonicDistance e (millis e m).2).2
      (echoReading (e.pulse m.nPulse))) (echoReading (e.pulse m.nPulse)) = false := by
    apply detectMotion_at_baseline
    rw [h1]
  have h3 := stateQuickCheck_no_motion e m hb hd h2
  rw [h1] at h3
  have hstate : (stateQuickCheck e m).rtc.g_state = m.rtc.g_state := by
    rw [h3]; simp only [enterDeepSleep, millis]; split_ifs <;> rfl
  refine ⟨?_, hstate, fun hs => ?_, ?_, ?_, ?_, ?_⟩
  · rw [h3]; simp only [enterDeepSleep, millis]; split_ifs <;> rfl
  · rw [hstate, hs]; decide
  · rw [h3]; simp only [enterDeepSleep, millis]; split_ifs <;> exact ha
  · rw [h3]; simp only [enterDeepSleep, millis]; split_ifs <;> rfl
  · rw [h3]; simp only [enterDeepSleep, millis]; split_ifs <;> rfl
  · rw [h3]; simp only [enterDeepSleep, millis]
    split_ifs
    · exact Or.inr rfl
    · exact Or.inl rfl
    · exact Or.inl rfl

theorem due_refresh_absorbs_motion_witness :
    (0 : ℚ) ≤ (setup (Env.online WakeCause.timer 400000) Rtc.watching).rtc.g_baseline_distance ∧
    echoReading 2037 = 35 ∧
    MOTION_THRESHOLD_CM < |(35 : ℚ) - 50| ∧
    (stateQuickCheck (Env.online WakeCause.timer 400000)
      (setup (Env.online WakeCause.timer 400000) Rtc.watching)).rtc.g_baseline_distance = 35 ∧
    (stateQuickCheck (Env.online WakeCause.timer 400000)
      (setup (Env.online WakeCause.timer 400000) Rtc.watching)).rtc.g_state
        ≠ STATE_ACTIVE_MONITOR ∧
    (stateQuickCheck (Env.online WakeCause.timer 400000)
      (setup (Env.online WakeCause.timer 400000) Rtc.watching)).rtc.g_motion_event_count
        = 0 := by
  have h := due_refresh_absorbs_motion (Env.online WakeCause.timer 400000)
    (setup (Env.online WakeCause.timer 400000) Rtc.watching)
    (by decide!) (by decide!) rfl (by decide)
  have h35 : echoReading 2037 = 35 := by decide!
  refine ⟨by decide!, h35, by decide!, ?_, h.2.2.1 rfl, ?_⟩
  · rw [h.1]; exact h35
  · rw [h.2.2.2.2.2.1]; rfl

/-! ## The calls made by `stateUploadEvent` -/

theorem stateUploadEvent_online_trace (e : Env) (fuel : Nat) (m m' : Machine)
    (hw : e.wifi m.nWifi = true) (hf : e.firebase m.nFirebase = true)
    (h : stateUploadEvent e fuel m = some m') :
    m'.trace = m.trace ++ [Event.wifiConnect, Event.firebaseInit, Event.sensorRead,
      Event.databaseSet, Event.databaseSet, Event.databaseSet, Event.databaseSet,
      Event.databaseSet, Event.databaseSet, Event.databaseSet,
      Event.wifiDisconnect, Event.deepSleep DEEP_SLEEP_NORMAL_MS] := by
  have h1 : (connectWiFi e (millis e m).2).1 = true := hw
  have h2 : (initFirebase e (connectWiFi e (millis e m).2).2).1 = true := hf
  unfold stateUploadEvent at h
  simp only [h1, h2, Bool.true_eq_false, if_false] at h
  split at h
  · simp at h
  · rename_i m2 hwait
    simp only [Option.some.injEq] at h
    subst h
    obtain ⟨-, h4, -, -⟩ := uploadWait_unchanged e _ fuel _ _ hwait
    rw [(uploadFinish_result e m2).2.2, h4]
    simp [databaseSet, millis, readUltrasonicDistance, initFirebase, connectWiFi]

/-- C13, as amended. `stateUploadEvent` always ends, and on the exit paths on which WiFi
was connected (Firebase not ready in time, and successful publish) `disconnectWiFi` is
the call made just before the sleep request; when the WiFi connect fails no teardown is
called: the sleep request follows the failed connect directly. -/
theorem upload_event_calls (e : Env) (m : Machine) :
    (BoundedDrift e → ∃ m', stateUploadEvent e 61 m = some m') ∧
    ∀ fuel m', stateUploadEvent e fuel m = some m' →
      (e.wifi m.nWifi = false →
        m'.trace = m.trace ++ [Event.wifiConnect, Event.deepSleep DEEP_SLEEP_NORMAL_MS]) ∧
      (e.wifi m.nWifi = true → e.firebase m.nFirebase = false →
        m'.trace = m.trace ++ [Event.wifiConnect, Event.firebaseInit,
          Event.wifiDisconnect, Event.deepSleep DEEP_SLEEP_NORMAL_MS]) ∧
      (e.wifi m.nWifi = true → e.firebase m.nFirebase = true →
        m'.trace = m.trace ++ [Event.wifiConnect, Event.firebaseInit, Event.sensorRead,
          Event.databaseSet, Event.databaseSet, Event.databaseSet, Event.databaseSet,
          Event.databaseSet, Event.databaseSet, Event.databaseSet,
          Event.wifiDisconnect, Event.deepSleep DEEP_SLEEP_NORMAL_MS]) := by
  refine ⟨fun hb => stateUploadEvent_returns e hb m, fun fuel m' h => ⟨?_, ?_, ?_⟩⟩
  · intro hw
    rw [stateUploadEvent_wifi_down e fuel m hw, Option.some.injEq] at h
    subst h
    simp [enterDeepSleep, connectWiFi, millis]
  · intro hw hf
    rw [stateUploadEvent_firebase_down e fuel m hw hf, Option.some.injEq] at h
    subst h
    simp [enterDeepSleep, connectWiFi, millis, disconnectWiFi, initFirebase]
  · intro hw hf
    exact stateUploadEvent_online_trace e fuel m m' hw hf h

theorem upload_event_calls_witness :
    BoundedDrift (Env.online WakeCause.timer 100000) ∧
    ∃ m', stateUploadEvent (Env.online WakeCause.timer 100000) 61
        (setup (Env.online WakeCause.timer 100000) Rtc.afterUpload) = some m' ∧
      m'.trace = [Event.wifiConnect, Event.firebaseInit, Event.sensorRead,
        Event.databaseSet, Event.databaseSet, Event.databaseSet, Event.databaseSet,
        Event.databaseSet, Event.databaseSet, Event.databaseSet,
        Event.wifiDisconnect, Event.deepSleep DEEP_SLEEP_NORMAL_MS] := by
  have hb : BoundedDrift (Env.online WakeCause.timer 100000) := fun _ => by
    simp [Env.online]
  have h := upload_event_calls (Env.online WakeCause.timer 100000)
    (setup (Env.online WakeCause.timer 100000) Rtc.afterUpload)
  obtain ⟨m', hm'⟩ := h.1 hb
  exact ⟨hb, m', hm', (h.2 61 m' hm').2.2 rfl rfl⟩

/-- C13 as stated fails: when the WiFi connect fails, `stateUploadEvent` calls
`connectWiFi` and then `enterDeepSleep`; `disconnectWiFi` is not called at all. -/
theorem upload_event_wifi_failure_skips_teardown :
    (stateUploadEvent (Env.steady WakeCause.timer 100000 2037) 61
        (setup (Env.steady WakeCause.timer 100000 2037) Rtc.afterUpload)).map
      (fun m => m.trace)
      = some [Event.wifiConnect, Event.deepSleep DEEP_SLEEP_NORMAL_MS] ∧
    Event.wifiDisconnect ∉ [Event.wifiConnect, Event.deepSleep DEEP_SLEEP_NORMAL_MS] := by
  decide!

/-! ## The baseline across the handlers -/

theorem stateQuickCheck_baseline (e : Env) (m : Machine) :
    (stateQuickCheck e m).rtc.g_baseline_distance = m.rtc.g_baseline_distance ∨
      ((stateQuickCheck e m).rtc.g_baseline_distance = echoReading (e.pulse m.nPulse) ∧
        0 < echoReading (e.pulse m.nPulse)) := by
  unfold stateQuickCheck refreshBaseline updateBaseline
  simp only [millis, readUltrasonicDistance, enterDeepSleep]
  split_ifs <;> simp_all

theorem stateActiveMonitor_baseline (e : Env) (fuel : Nat) (m m' : Machine)
    (h : stateActiveMonitor e fuel m = some m') :
    m'.rtc.g_baseline_distance = m.rtc.g_baseline_distance ∧
    m'.rtc.g_last_baseline_update = m.rtc.g_last_baseline_update := by
  unfold stateActiveMonitor at h
  split at h
  · simp at h
  · rename_i m1 l hwin
    simp only [Option.some.injEq] at h
    subst h
    obtain ⟨h1, -, -⟩ := monitorWindow_unchanged e fuel m m1 l hwin
    rw [← h1]
    cases l.motionConfirmed with
    | false => rw [monitorDecision_not_confirmed]; exact ⟨rfl, rfl⟩
    | true =>
      by_cases hr : MIN_UPLOAD_INTERVAL_MS ≤ sub32 (millis e m1).1 m1.rtc.g_last_upload_time
      · rw [monitorDecision_upload e m1 hr]; exact ⟨rfl, rfl⟩
      · rw [monitorDecision_rate_limited e m1 hr]; exact ⟨rfl, rfl⟩

theorem stateUploadEvent_baseline (e : Env) (fuel : Nat) (m m' : Machine)
    (h : stateUploadEvent e fuel m = some m') :
    m'.rtc.g_baseline_distance = m.rtc.g_baseline_distance ∧
    m'.rtc.g_last_baseline_update = m.rtc.g_last_baseline_update := by
  cases hw : e.wifi m.nWifi with
  | false =>
    rw [stateUploadEvent_wifi_down e fuel m hw, Option.some.injEq] at h
    subst h
    exact ⟨rfl, rfl⟩
  | true =>
    cases hf : e.firebase m.nFirebase with
    | false =>
      rw [stateUploadEvent_firebase_down e fuel m hw hf, Option.some.injEq] at h
      subst h
      exact ⟨rfl, rfl⟩
    | true =>
      obtain ⟨m1, hm1, h1⟩ := stateUploadEvent_online e fuel m hw hf
      rw [h1] at h
      cases h2 : uploadWait e (millis e m1).1 fuel (millis e m1).2 with
      | none => rw [h2] at h; simp at h
      | some m2 =>
        rw [h2] at h
        simp only [Option.map_some', Option.some.injEq] at h
        subst h
        have h3 := (uploadWait_unchanged e _ fuel _ _ h2).1
        have h4 : m2.rtc = m.rtc := by rw [h3, ← hm1]; rfl
        rw [(uploadFinish_result e m2).1, h4]
        exact ⟨rfl, rfl⟩

/-- C11. Whatever the RTC contents and the sensor readings: after `stateQuickCheck` the
baseline is unchanged or equal to the reading the sensor returned in that run, a valid one
(in `[2, 400]` cm), and a baseline that was set is still set; `stateActiveMonitor` and
`stateUploadEvent`, which always end, leave the baseline unchanged; and `updateBaseline`
called with a non-positive distance changes nothing. -/
theorem baseline_only_from_valid_reading (e : Env) (m : Machine) :
    ((stateQuickCheck e m).rtc.g_baseline_distance = m.rtc.g_baseline_distance ∨
      ((stateQuickCheck e m).rtc.g_baseline_distance = echoReading (e.pulse m.nPulse) ∧
        2 ≤ echoReading (e.pulse m.nPulse) ∧ echoReading (e.pulse m.nPulse) ≤ 400)) ∧
    (0 ≤ m.rtc.g_baseline_distance → 0 ≤ (stateQuickCheck e m).rtc.g_baseline_distance) ∧
    (BoundedDrift e → (∃ m', stateActiveMonitor e 16 m = some m') ∧
      ∃ m', stateUploadEvent e 61 m = some m') ∧
    (∀ fuel m', stateActiveMonitor e fuel m = some m' →
      m'.rtc.g_baseline_distance = m.rtc.g_baseline_distance) ∧
    (∀ fuel m', stateUploadEvent e fuel m = some m' →
      m'.rtc.g_baseline_distance = m.rtc.g_baseline_distance) ∧
    ∀ d : ℚ, d ≤ 0 → updateBaseline e m d = m := by
  have hq : (stateQuickCheck e m).rtc.g_baseline_distance = m.rtc.g_baseline_distance ∨
      ((stateQuickCheck e m).rtc.g_baseline_distance = echoReading (e.pulse m.nPulse) ∧
        2 ≤ echoReading (e.pulse m.nPulse) ∧ echoReading (e.pulse m.nPulse) ≤ 400) := by
    rcases stateQuickCheck_baseline e m with h | ⟨h1, h2⟩
    · exact Or.inl h
    · rcases echoReading_cases (e.pulse m.nPulse) with h3 | h3
      · rw [h3] at h2; norm_num at h2
      · exact Or.inr ⟨h1, h3⟩
  refine ⟨hq, fun hb => ?_, fun hb => ⟨?_, stateUploadEvent_returns e hb m⟩,
    fun fuel m' h => (stateActiveMonitor_baseline e fuel m m' h).1,
    fun fuel m' h => (stateUploadEvent_baseline e fuel m m' h).1, fun d hd => ?_⟩
  · rcases hq with h | ⟨h1, h2, -⟩
    · rw [h]; exact hb
    · rw [h1]; linarith
  · obtain ⟨⟨m1, l⟩, hr⟩ := monitorLoop_terminates e hb m
    exact ⟨monitorDecision e m1 l.motionConfirmed, by simp [stateActiveMonitor, hr]⟩
  · simp [updateBaseline, not_lt.mpr hd]

theorem baseline_only_from_valid_reading_witness :
    (0 : ℚ) ≤ (setup (Env.online WakeCause.timer 400000) Rtc.watching).rtc.g_baseline_distance ∧
    (0 : ℚ) ≤ (stateQuickCheck (Env.online WakeCause.timer 400000)
      (setup (Env.online WakeCause.timer 400000) Rtc.watching)).rtc.g_baseline_distance ∧
    updateBaseline (Env.online WakeCause.timer 400000)
      (setup (Env.online WakeCause.timer 400000) Rtc.watching) (-1)
      = setup (Env.online WakeCause.timer 400000) Rtc.watching := by
  have h := baseline_only_from_valid_reading (Env.online WakeCause.timer 400000)
    (setup (Env.online WakeCause.timer 400000) Rtc.watching)
  have hb : (0 : ℚ) ≤
      (setup (Env.online WakeCause.timer 400000) Rtc.watching).rtc.g_baseline_distance := by
    decide!
  exact ⟨hb, h.2.1 hb, h.2.2.2.2.2 (-1) (by norm_num)⟩

end MotionDetect
